import Mathlib

/-!
# twpipe: the part-of-speech model builder

A shallow embedding of `src/postagger/postag_model_builder.cc`
(`PostagModelBuilder`: constructor, `build`, `to_json`, `from_json`) and the
properties of its variant catalog and persistence protocol.

Conventions.
* `unsigned` values are `Nat`; the decoder `lexical_cast_unsigned` only yields
  values below `2 ^ 32`.
* A call that terminates the process (`exit(1)`, a failed `BOOST_ASSERT_MSG`,
  an uncaught exception) is an `Except.error`: nothing after it runs, so no
  engine is constructed and no parameter blob is loaded afterwards.
-/

namespace twpipe

/-! ## Failures -/

deriving instance DecidableEq for Except

/-- The ways the builder terminates the process, named after the error taxonomy
of the specification.
* `UnknownVariant name`: the final `else` of `from_json`
  (`_ERROR << "... unknow postag model: " << model_name; exit(1);`).
* `UnreachableVariant name`: the final `else` of `build` (same message, `exit(1)`).
* `VocabularyMismatch msg`: a failed `BOOST_ASSERT_MSG(.., msg)` (assertions active).
* `CorruptModelArtifact field`: reading `field` from the store failed (the field
  is not there) or `boost::lexical_cast<unsigned>` threw `bad_lexical_cast` on it.
* `InvalidHyperparameter`: a zero required dimension; no statement of the source
  raises it. -/
inductive Error where
  | UnknownVariant (name : String)
  | UnreachableVariant (name : String)
  | VocabularyMismatch (msg : String)
  | CorruptModelArtifact (field : String)
  | InvalidHyperparameter
  deriving DecidableEq, Repr

/-! ## boost::lexical_cast -/

/-- The call `boost::lexical_cast<std::string>(u)` for an `unsigned u`: the decimal
digits of `u`, most significant first, no sign, no leading zero. -/
def lexical_cast_string (u : Nat) : String := Nat.repr u

/-- Value of a run of decimal digits read left to right; `none` when a character
is not one of `0..9`. -/
def digitsValue (cs : List Char) : Option Nat :=
  cs.foldl (fun acc c => acc.bind fun v =>
    if c.isDigit then some (10 * v + (c.toNat - 48)) else none) (some 0)

/-- The call `boost::lexical_cast<unsigned>(s)` (Boost.LexicalCast, `shr_unsigned`):
an optional leading `+` or `-`, then at least one decimal digit and nothing else;
the digits must denote a value of at most `UINT_MAX = 4294967295`; with a leading
`-` the result is negated modulo `2 ^ 32` (`output = 0u - output`). `none` stands
for the thrown `bad_lexical_cast`. -/
def lexical_cast_unsigned (s : String) : Option Nat :=
  let cs := s.toList
  let has_minus := cs.head? = some '-'
  let ds := if has_minus ∨ cs.head? = some '+' then cs.tail else cs
  if ds = [] then none
  else
    match digitsValue ds with
    | none => none
    | some v =>
      if v ≤ 4294967295 then
        some (if has_minus then (4294967296 - v) % 4294967296 else v)
      else none

/-! ## The persistent model store (`twpipe::Model`) -/

/-- Modelled from the spec: the class `Model` of `twpipe/model.h` (the Persistent
Model Store), which is not among the sources. Its scalar part is a mapping from
(stage, field) to a text value that keeps insertion order per stage; an entry is
the triple (stage, field, value). -/
structure Model where
  payload : List (String × String × String)
  deriving DecidableEq, Repr

/-- Modelled from the spec: the freshly created store of a training run. -/
def Model.empty : Model := ⟨[]⟩

/-- Modelled from the spec: the constant `Model::kPostaggerName` of `twpipe/model.h`,
the namespace of the tagger stage. -/
def Model.kPostaggerName : String := "postagger"

/-- Modelled from the spec: `get(stage, field) → value or NotFound` of the
Persistent Model Store. -/
def Model.get (m : Model) (stage field : String) : Option String :=
  (m.payload.find? fun e => decide (e.1 = stage ∧ e.2.1 = field)).map fun e => e.2.2

/-- Modelled from the spec: `put(stage, field, value)` of the Persistent Model
Store: a field already there gets the new value in place, a new field is appended
after the existing ones. -/
def Model.put (m : Model) (stage field value : String) : Model :=
  if (m.get stage field).isSome then
    ⟨m.payload.map fun e =>
      if e.1 = stage ∧ e.2.1 = field then (stage, field, value) else e⟩
  else ⟨m.payload ++ [(stage, field, value)]⟩

/-- Modelled from the spec: `Model::to_json(stage, record)` of `twpipe/model.h`,
which puts the fields of `record` under `stage` in the order written. -/
def Model.to_json (m : Model) (stage : String) (record : List (String × String)) : Model :=
  record.foldl (fun g kv => g.put stage kv.1 kv.2) m

/-- Modelled from the spec: `Model::from_json(stage, key)` of `twpipe/model.h`,
returning the text recorded under `key`; a field that is not there is fatal
(`CorruptModelArtifact`). -/
def Model.from_json (m : Model) (stage key : String) : Except Error String :=
  match m.get stage key with
  | some v => .ok v
  | none => .error (.CorruptModelArtifact key)

/-- The expression
`boost::lexical_cast<unsigned>(globals->from_json(Model::kPostaggerName, key))`
of `PostagModelBuilder::from_json`. -/
def Model.from_json_unsigned (m : Model) (key : String) : Except Error Nat :=
  match m.from_json Model.kPostaggerName key with
  | .error e => .error e
  | .ok v =>
    match lexical_cast_unsigned v with
    | some u => .ok u
    | none => .error (.CorruptModelArtifact key)

/-! ## Variants, engines and the builder state -/

/-- Modelled from the spec: the enumeration `PostagModelBuilder::ModelType` of
`postag_model_builder.h` (the header is not among the sources), with the six
enumerators that `postag_model_builder.cc` uses as variant tags. -/
inductive ModelType where
  | kCharacterGRUPostagModel
  | kCharacterLSTMPostagModel
  | kCharacterGRUPostagCRFModel
  | kCharacterLSTMPostagCRFModel
  | kCharacterClusterGRUPostagModel
  | kCharacterClusterLSTMPostagModel
  deriving DecidableEq, Repr

/-- Modelled from the spec: the engine classes of `postag_model.h` (not among the
sources), each recorded with the arguments its constructor receives after the
parameter collection, in call order. The four plain classes take `char_size,
char_dim, char_hidden_dim, char_n_layers, embed_dim, word_hidden_dim,
word_n_layers, pos_dim`; the two cluster classes take `cluster_dim,
cluster_hidden_dim, cluster_n_layers` before `pos_dim`. -/
inductive PostagModel where
  | CharacterGRUPostagModel (args : List Nat)
  | CharacterLSTMPostagModel (args : List Nat)
  | CharacterGRUCRFPostagModel (args : List Nat)
  | CharacterLSTMCRFPostagModel (args : List Nat)
  | CharacterGRUWithClusterPostagModel (args : List Nat)
  | CharacterLSTMWithClusterPostagModel (args : List Nat)
  deriving DecidableEq, Repr

/-- The members of `struct PostagModelBuilder`. `model_type = none` stands for a
member holding none of the six enumerators. -/
structure PostagModelBuilder where
  model_type : Option ModelType
  model_name : String
  char_size : Nat
  pos_size : Nat
  char_dim : Nat
  char_hidden_dim : Nat
  char_n_layers : Nat
  word_hidden_dim : Nat
  word_n_layers : Nat
  cluster_dim : Nat
  cluster_hidden_dim : Nat
  cluster_n_layers : Nat
  pos_dim : Nat
  embed_dim : Nat
  deriving DecidableEq, Repr

/-- The options of the `po::variables_map` that the constructor reads:
`pos-model-name` and the optional unsigned options (`none` when
`conf.count(..)` is 0). -/
structure Conf where
  pos_model_name : String
  pos_char_dim : Option Nat
  pos_char_hidden_dim : Option Nat
  pos_char_n_layer : Option Nat
  pos_word_hidden_dim : Option Nat
  pos_word_n_layer : Option Nat
  pos_cluster_dim : Option Nat
  pos_cluster_hidden_dim : Option Nat
  pos_cluster_n_layer : Option Nat
  pos_pos_dim : Option Nat
  embedding_dim : Option Nat
  deriving DecidableEq, Repr

/-- The two sizes the constructor takes from `AlphabetCollection::get()`:
`char_map.size()` and `pos_map.size()`. -/
structure AlphabetCollection where
  char_map_size : Nat
  pos_map_size : Nat
  deriving DecidableEq, Repr

/-- What a call of the constructor leaves behind: the lines sent to `_ERROR` and
the constructed object. The constructor has no `exit` and no `throw`. -/
structure Constructed where
  errors : List String
  builder : PostagModelBuilder
  deriving DecidableEq, Repr

/-! ## PostagModelBuilder -/

/-- The constructor `PostagModelBuilder::PostagModelBuilder(conf)`
(`postag_model_builder.cc`, lines 15-46). `uninit` is the content of the member
`model_type` before the body runs: the member has no initialiser, and the final
`else` only logs, so an unknown name leaves it as it was. -/
def PostagModelBuilder.construct (uninit : Option ModelType) (conf : Conf)
    (alphabet : AlphabetCollection) : Constructed :=
  let model_name := conf.pos_model_name
  let chosen : List String × Option ModelType :=
    if model_name = "char-gru" then ([], some .kCharacterGRUPostagModel)
    else if model_name = "char-lstm" then ([], some .kCharacterLSTMPostagModel)
    else if model_name = "char-gru-crf" then ([], some .kCharacterGRUPostagCRFModel)
    else if model_name = "char-lstm-crf" then ([], some .kCharacterLSTMPostagCRFModel)
    else if model_name = "char-gru-wcluster" then ([], some .kCharacterClusterGRUPostagModel)
    else if model_name = "char-lstm-wcluster" then ([], some .kCharacterClusterLSTMPostagModel)
    else (["[postag|model_builder] unknow postag model: " ++ model_name], uninit)
  { errors := chosen.1
    builder :=
      { model_type := chosen.2
        model_name := model_name
        char_size := alphabet.char_map_size % 4294967296
        pos_size := alphabet.pos_map_size % 4294967296
        char_dim := conf.pos_char_dim.getD 0
        char_hidden_dim := conf.pos_char_hidden_dim.getD 0
        char_n_layers := conf.pos_char_n_layer.getD 0
        word_hidden_dim := conf.pos_word_hidden_dim.getD 0
        word_n_layers := conf.pos_word_n_layer.getD 0
        cluster_dim := conf.pos_cluster_dim.getD 0
        cluster_hidden_dim := conf.pos_cluster_hidden_dim.getD 0
        cluster_n_layers := conf.pos_cluster_n_layer.getD 0
        pos_dim := conf.pos_pos_dim.getD 0
        embed_dim := conf.embedding_dim.getD 0 } }

/-- The method `PostagModelBuilder::build` (lines 48-81): a chain of comparisons
of `model_type` with the six tags, each branch constructing its engine class with
the arguments written at that call; the final `else` logs and calls `exit(1)`. -/
def PostagModelBuilder.build (b : PostagModelBuilder) : Except Error PostagModel :=
  if b.model_type = some .kCharacterGRUPostagModel then
    .ok (.CharacterGRUPostagModel
      [b.char_size, b.char_dim, b.char_hidden_dim, b.char_n_layers, b.embed_dim,
       b.word_hidden_dim, b.word_n_layers, b.pos_dim])
  else if b.model_type = some .kCharacterLSTMPostagModel then
    .ok (.CharacterLSTMPostagModel
      [b.char_size, b.char_dim, b.char_hidden_dim, b.char_n_layers, b.embed_dim,
       b.word_hidden_dim, b.word_n_layers, b.pos_dim])
  else if b.model_type = some .kCharacterGRUPostagCRFModel then
    .ok (.CharacterGRUCRFPostagModel
      [b.char_size, b.char_dim, b.char_hidden_dim, b.char_n_layers, b.embed_dim,
       b.word_hidden_dim, b.word_n_layers, b.pos_dim])
  else if b.model_type = some .kCharacterLSTMPostagCRFModel then
    .ok (.CharacterLSTMCRFPostagModel
      [b.char_size, b.char_dim, b.char_hidden_dim, b.char_n_layers, b.embed_dim,
       b.word_hidden_dim, b.word_n_layers, b.pos_dim])
  else if b.model_type = some .kCharacterClusterGRUPostagModel then
    .ok (.CharacterGRUWithClusterPostagModel
      [b.char_size, b.char_dim, b.char_hidden_dim, b.char_n_layers, b.embed_dim,
       b.word_hidden_dim, b.word_n_layers, b.cluster_dim, b.cluster_hidden_dim,
       b.cluster_n_layers, b.pos_dim])
  else if b.model_type = some .kCharacterClusterLSTMPostagModel then
    .ok (.CharacterLSTMWithClusterPostagModel
      [b.char_size, b.char_dim, b.char_hidden_dim, b.char_n_layers, b.embed_dim,
       b.word_hidden_dim, b.word_n_layers, b.cluster_dim, b.cluster_hidden_dim,
       b.cluster_n_layers, b.pos_dim])
  else .error (.UnreachableVariant b.model_name)

/-- The records that `PostagModelBuilder::to_json` (lines 83-105) hands to
`Model::to_json`, in call order: the ten-field record always, the three-field
cluster record only for the two cluster tags. -/
def PostagModelBuilder.to_json_records (b : PostagModelBuilder) :
    List (List (String × String)) :=
  [ [ ("name", b.model_name),
      ("n-chars", lexical_cast_string b.char_size),
      ("char-dim", lexical_cast_string b.char_dim),
      ("char-hidden-dim", lexical_cast_string b.char_hidden_dim),
      ("char-n-layers", lexical_cast_string b.char_n_layers),
      ("word-hidden-dim", lexical_cast_string b.word_hidden_dim),
      ("word-n-layers", lexical_cast_string b.word_n_layers),
      ("pos-dim", lexical_cast_string b.pos_dim),
      ("n-postags", lexical_cast_string b.pos_size),
      ("emb-dim", lexical_cast_string b.embed_dim) ] ] ++
  (if b.model_type = some .kCharacterClusterGRUPostagModel ∨
      b.model_type = some .kCharacterClusterLSTMPostagModel then
    [ [ ("cluster-dim", lexical_cast_string b.char_dim),
        ("cluster-hidden-dim", lexical_cast_string b.char_hidden_dim),
        ("cluster-n-layers", lexical_cast_string b.char_n_layers) ] ]
  else [])

/-- The method `PostagModelBuilder::to_json` (lines 83-105) on the store `globals`:
each record goes to `Model::to_json` under `Model::kPostaggerName`. -/
def PostagModelBuilder.to_json (b : PostagModelBuilder) (globals : Model) : Model :=
  b.to_json_records.foldl (fun g record => g.to_json Model.kPostaggerName record) globals

/-- The statement `BOOST_ASSERT_MSG(cond, msg)` with assertions active: a false
condition aborts the process with `msg`. -/
def BOOST_ASSERT_MSG (cond : Bool) (msg : String) : Except Error Unit :=
  if cond then .ok () else .error (.VocabularyMismatch msg)

/-- What a completed `from_json` leaves: the builder members, the engine it
returns, and the trained parameters loaded into the parameter collection. -/
structure Reconstructed where
  builder : PostagModelBuilder
  engine : PostagModel
  parameters : List Nat
  deriving DecidableEq, Repr

/-- The name dispatch of `from_json` (lines 151-186): the tag assigned to
`model_type` and the engine constructed from the members of `b`, with the
arguments written at that call; the final `else` logs and calls `exit(1)`. -/
def PostagModelBuilder.from_json_dispatch (b : PostagModelBuilder) :
    Except Error (ModelType × PostagModel) :=
  if b.model_name = "char-gru" then
    .ok (.kCharacterGRUPostagModel, .CharacterGRUPostagModel
      [b.char_size, b.char_dim, b.char_hidden_dim, b.char_n_layers, b.embed_dim,
       b.word_hidden_dim, b.word_n_layers, b.pos_dim])
  else if b.model_name = "char-lstm" then
    .ok (.kCharacterLSTMPostagModel, .CharacterLSTMPostagModel
      [b.char_size, b.char_dim, b.char_hidden_dim, b.char_n_layers, b.embed_dim,
       b.word_hidden_dim, b.word_n_layers, b.pos_dim])
  else if b.model_name = "char-gru-crf" then
    .ok (.kCharacterGRUPostagCRFModel, .CharacterGRUCRFPostagModel
      [b.char_size, b.char_dim, b.char_hidden_dim, b.char_n_layers, b.embed_dim,
       b.word_hidden_dim, b.word_n_layers, b.pos_dim])
  else if b.model_name = "char-lstm-crf" then
    .ok (.kCharacterLSTMPostagCRFModel, .CharacterLSTMCRFPostagModel
      [b.char_size, b.char_dim, b.char_hidden_dim, b.char_n_layers, b.embed_dim,
       b.word_hidden_dim, b.word_n_layers, b.pos_dim])
  else if b.model_name = "char-gru-wcluster" then
    .ok (.kCharacterClusterGRUPostagModel, .CharacterGRUWithClusterPostagModel
      [b.char_size, b.char_dim, b.char_hidden_dim, b.char_n_layers, b.embed_dim,
       b.word_hidden_dim, b.word_n_layers, b.cluster_dim, b.cluster_hidden_dim,
       b.cluster_n_layers, b.pos_dim])
  else if b.model_name = "char-lstm-wcluster" then
    .ok (.kCharacterClusterLSTMPostagModel, .CharacterLSTMWithClusterPostagModel
      [b.char_size, b.char_dim, b.char_hidden_dim, b.char_n_layers, b.embed_dim,
       b.word_hidden_dim, b.word_n_layers, b.cluster_dim, b.cluster_hidden_dim,
       b.cluster_n_layers, b.pos_dim])
  else .error (.UnknownVariant b.model_name)

/-- The statement
`if (member == 0) { member = temp_size; } else { BOOST_ASSERT_MSG(member == temp_size, msg); }`
of `from_json` (lines 116-120 for `char_size`, 124-128 for `pos_size`); the
result is the member afterwards. -/
def reconcile_size (member temp_size : Nat) (msg : String) : Except Error Nat :=
  if member = 0 then pure temp_size
  else do
    BOOST_ASSERT_MSG (member = temp_size) msg
    pure member

/-- The field reads of `PostagModelBuilder::from_json` (lines 110-149): the
recorded name, the two vocabulary sizes with their reconciliation against the
members `char_size` and `pos_size`, then the ten dimensions, in source order.
The result is the members after line 149 (`model_type` is not yet assigned). -/
def PostagModelBuilder.from_json_fields (globals : Model) (b : PostagModelBuilder) :
    Except Error PostagModelBuilder := do
  let model_name ← globals.from_json Model.kPostaggerName "name"
  let temp_size ← globals.from_json_unsigned "n-chars"
  let char_size ← reconcile_size b.char_size temp_size
    "[postag|model_builder] char-size mismatch!"
  let temp_size ← globals.from_json_unsigned "n-postags"
  let pos_size ← reconcile_size b.pos_size temp_size
    "[postag|model_builder] pos-size mismatch!"
  let char_dim ← globals.from_json_unsigned "char-dim"
  let char_hidden_dim ← globals.from_json_unsigned "char-hidden-dim"
  let char_n_layers ← globals.from_json_unsigned "char-n-layers"
  let word_hidden_dim ← globals.from_json_unsigned "word-hidden-dim"
  let word_n_layers ← globals.from_json_unsigned "word-n-layers"
  let cluster_dim ← globals.from_json_unsigned "cluster-dim"
  let cluster_hidden_dim ← globals.from_json_unsigned "cluster-hidden-dim"
  let cluster_n_layers ← globals.from_json_unsigned "cluster-n-layers"
  let pos_dim ← globals.from_json_unsigned "pos-dim"
  let embed_dim ← globals.from_json_unsigned "emb-dim"
  pure
    { model_type := b.model_type
      model_name := model_name
      char_size := char_size
      pos_size := pos_size
      char_dim := char_dim
      char_hidden_dim := char_hidden_dim
      char_n_layers := char_n_layers
      word_hidden_dim := word_hidden_dim
      word_n_layers := word_n_layers
      cluster_dim := cluster_dim
      cluster_hidden_dim := cluster_hidden_dim
      cluster_n_layers := cluster_n_layers
      pos_dim := pos_dim
      embed_dim := embed_dim }

/-- The method `PostagModelBuilder::from_json` (lines 107-191) on the store
`globals`, for a builder with members `b`: the field reads, the name dispatch
that assigns `model_type` and constructs the engine, then the call
`globals->from_json(Model::kPostaggerName, model)` of line 188. That call is
declared in `twpipe/model.h`, which is not among the sources; it is the parameter
`load`, yielding the trained parameters it loads into the collection the engine
was built in. -/
def PostagModelBuilder.from_json (load : Model → String → PostagModel → Except Error (List Nat))
    (globals : Model) (b : PostagModelBuilder) : Except Error Reconstructed := do
  let b ← b.from_json_fields globals
  let (model_type, engine) ← b.from_json_dispatch
  let b := { b with model_type := some model_type }
  let parameters ← load globals Model.kPostaggerName engine
  pure { builder := b, engine := engine, parameters := parameters }

/-! ## Vocabulary of the statements -/

/-- The six names of the variant catalog, in the order of the constructor's
comparisons. -/
def catalog_names : List String :=
  ["char-gru", "char-lstm", "char-gru-crf", "char-lstm-crf", "char-gru-wcluster",
   "char-lstm-wcluster"]

/-- A configuration that sets only `pos-model-name`. -/
def Conf.named (name : String) : Conf :=
  { pos_model_name := name, pos_char_dim := none, pos_char_hidden_dim := none,
    pos_char_n_layer := none, pos_word_hidden_dim := none, pos_word_n_layer := none,
    pos_cluster_dim := none, pos_cluster_hidden_dim := none, pos_cluster_n_layer := none,
    pos_pos_dim := none, embedding_dim := none }

/-- The tag the constructor assigns for `name`; `none` when it assigns none. -/
def tag_of_name (name : String) : Option ModelType :=
  (PostagModelBuilder.construct none (Conf.named name) ⟨0, 0⟩).builder.model_type

/-- The field keys `to_json` writes for a builder constructed from `name`. -/
def required_fields (name : String) : List String :=
  ((PostagModelBuilder.construct none (Conf.named name) ⟨0, 0⟩).builder.to_json_records.flatten).map
    Prod.fst

/-- The twelve keys `from_json` decodes as unsigned, in the order it reads them. -/
def numeric_fields : List String :=
  ["n-chars", "n-postags", "char-dim", "char-hidden-dim", "char-n-layers",
   "word-hidden-dim", "word-n-layers", "cluster-dim", "cluster-hidden-dim",
   "cluster-n-layers", "pos-dim", "emb-dim"]

/-- Whether the tagger namespace of `s` holds, under `key`, text that
`boost::lexical_cast<unsigned>` decodes. -/
def Model.decodes (s : Model) (key : String) : Bool :=
  match s.from_json_unsigned key with
  | .ok _ => true
  | .error _ => false

/-- The unsigned value recorded under `key` (0 when there is none). -/
def Model.unsigned_field (s : Model) (key : String) : Nat :=
  match s.from_json_unsigned key with
  | .ok v => v
  | .error _ => 0

/-- Neither vocabulary check of `from_json` can fail: each of `char_size`,
`pos_size` is 0 or equals the recorded value. -/
def sizes_agree (s : Model) (b : PostagModelBuilder) : Prop :=
  (b.char_size = 0 ∨ b.char_size = s.unsigned_field "n-chars") ∧
  (b.pos_size = 0 ∨ b.pos_size = s.unsigned_field "n-postags")

/-- The members that the field reads of `from_json` produce from the store `s`
when every read succeeds and both vocabulary checks pass. -/
def PostagModelBuilder.resolved (s : Model) (b : PostagModelBuilder) : PostagModelBuilder :=
  { model_type := b.model_type
    model_name := (s.get Model.kPostaggerName "name").getD ""
    char_size := if b.char_size = 0 then s.unsigned_field "n-chars" else b.char_size
    pos_size := if b.pos_size = 0 then s.unsigned_field "n-postags" else b.pos_size
    char_dim := s.unsigned_field "char-dim"
    char_hidden_dim := s.unsigned_field "char-hidden-dim"
    char_n_layers := s.unsigned_field "char-n-layers"
    word_hidden_dim := s.unsigned_field "word-hidden-dim"
    word_n_layers := s.unsigned_field "word-n-layers"
    cluster_dim := s.unsigned_field "cluster-dim"
    cluster_hidden_dim := s.unsigned_field "cluster-hidden-dim"
    cluster_n_layers := s.unsigned_field "cluster-n-layers"
    pos_dim := s.unsigned_field "pos-dim"
    embed_dim := s.unsigned_field "emb-dim" }

/-- The store `s` records the name and the twelve unsigned members of `b` in the
tagger namespace. -/
def Model.records (s : Model) (b : PostagModelBuilder) : Prop :=
  s.get Model.kPostaggerName "name" = some b.model_name ∧
  s.from_json_unsigned "n-chars" = .ok b.char_size ∧
  s.from_json_unsigned "n-postags" = .ok b.pos_size ∧
  s.from_json_unsigned "char-dim" = .ok b.char_dim ∧
  s.from_json_unsigned "char-hidden-dim" = .ok b.char_hidden_dim ∧
  s.from_json_unsigned "char-n-layers" = .ok b.char_n_layers ∧
  s.from_json_unsigned "word-hidden-dim" = .ok b.word_hidden_dim ∧
  s.from_json_unsigned "word-n-layers" = .ok b.word_n_layers ∧
  s.from_json_unsigned "cluster-dim" = .ok b.cluster_dim ∧
  s.from_json_unsigned "cluster-hidden-dim" = .ok b.cluster_hidden_dim ∧
  s.from_json_unsigned "cluster-n-layers" = .ok b.cluster_n_layers ∧
  s.from_json_unsigned "pos-dim" = .ok b.pos_dim ∧
  s.from_json_unsigned "emb-dim" = .ok b.embed_dim

instance (s : Model) (b : PostagModelBuilder) : Decidable (sizes_agree s b) := by
  unfold sizes_agree; infer_instance

instance (s : Model) (b : PostagModelBuilder) : Decidable (s.records b) := by
  unfold Model.records; infer_instance

/-- A loader for line 188 that always succeeds, with no parameters. -/
def load_nothing : Model → String → PostagModel → Except Error (List Nat) :=
  fun _ _ _ => .ok []

/-- Sample configuration: variant `name`, char-dim 16, char-hidden-dim 32,
char-n-layer 1, word-hidden-dim 64, word-n-layer 1, cluster-dim 8,
cluster-hidden-dim 24, cluster-n-layer 2, pos-dim 8, embedding-dim 100. -/
def sample_conf (name : String) : Conf :=
  { pos_model_name := name, pos_char_dim := some 16, pos_char_hidden_dim := some 32,
    pos_char_n_layer := some 1, pos_word_hidden_dim := some 64, pos_word_n_layer := some 1,
    pos_cluster_dim := some 8, pos_cluster_hidden_dim := some 24,
    pos_cluster_n_layer := some 2, pos_pos_dim := some 8, embedding_dim := some 100 }

/-- Sample alphabet: 50 characters, 12 tags. -/
def sample_alphabet : AlphabetCollection := ⟨50, 12⟩

/-- The builder the constructor makes from `sample_conf name` and the sample
alphabet. -/
def sample_builder (name : String) : PostagModelBuilder :=
  (PostagModelBuilder.construct none (sample_conf name) sample_alphabet).builder

/-- Sample store: a complete tagger namespace for "char-lstm-wcluster" that
records 87 characters and 12 tags. -/
def sample_store : Model :=
  ⟨[("postagger", "name", "char-lstm-wcluster"), ("postagger", "n-chars", "87"),
    ("postagger", "char-dim", "16"), ("postagger", "char-hidden-dim", "32"),
    ("postagger", "char-n-layers", "1"), ("postagger", "word-hidden-dim", "64"),
    ("postagger", "word-n-layers", "1"), ("postagger", "pos-dim", "8"),
    ("postagger", "n-postags", "12"), ("postagger", "emb-dim", "100"),
    ("postagger", "cluster-dim", "8"), ("postagger", "cluster-hidden-dim", "24"),
    ("postagger", "cluster-n-layers", "2")]⟩

/-- Sample store with an undecodable "n-chars": name "char-gru", "n-chars" =
"abc", "n-postags" = "13". -/
def sample_store_bad_chars : Model :=
  ⟨[("postagger", "name", "char-gru"), ("postagger", "n-chars", "abc"),
    ("postagger", "n-postags", "13")]⟩

/-- Sample store recording an unknown name: the sample store with "name"
replaced by "char-transformer". -/
def sample_store_unknown : Model :=
  sample_store.put "postagger" "name" "char-transformer"

/-- Sample store recording an unknown name and an undecodable "n-chars". -/
def sample_store_unknown_bad_chars : Model :=
  ⟨[("postagger", "name", "char-transformer"), ("postagger", "n-chars", "abc")]⟩

/-- The argument order of the four plain engine classes: char_size, char_dim,
char_hidden_dim, char_n_layers, embed_dim, word_hidden_dim, word_n_layers,
pos_dim. -/
def PostagModelBuilder.plain_args (b : PostagModelBuilder) : List Nat :=
  [b.char_size, b.char_dim, b.char_hidden_dim, b.char_n_layers, b.embed_dim,
   b.word_hidden_dim, b.word_n_layers, b.pos_dim]

/-- The argument order of the two cluster engine classes: as for the plain ones,
with cluster_dim, cluster_hidden_dim, cluster_n_layers before pos_dim. -/
def PostagModelBuilder.cluster_args (b : PostagModelBuilder) : List Nat :=
  [b.char_size, b.char_dim, b.char_hidden_dim, b.char_n_layers, b.embed_dim,
   b.word_hidden_dim, b.word_n_layers, b.cluster_dim, b.cluster_hidden_dim,
   b.cluster_n_layers, b.pos_dim]

/-- The argument list expected for the variant `b` holds: the cluster list for
the two cluster tags, the plain list otherwise. -/
def PostagModelBuilder.expected_args (b : PostagModelBuilder) : List Nat :=
  if b.model_type = some .kCharacterClusterGRUPostagModel ∨
      b.model_type = some .kCharacterClusterLSTMPostagModel then b.cluster_args
  else b.plain_args

/-- The arguments an engine was constructed with. -/
def PostagModel.args : PostagModel → List Nat
  | .CharacterGRUPostagModel a => a
  | .CharacterLSTMPostagModel a => a
  | .CharacterGRUCRFPostagModel a => a
  | .CharacterLSTMCRFPostagModel a => a
  | .CharacterGRUWithClusterPostagModel a => a
  | .CharacterLSTMWithClusterPostagModel a => a

/-- Every unsigned member of `b` fits an `unsigned` (at most `UINT_MAX`). -/
def PostagModelBuilder.unsigned_members (b : PostagModelBuilder) : Prop :=
  b.char_size ≤ 4294967295 ∧ b.pos_size ≤ 4294967295 ∧ b.char_dim ≤ 4294967295 ∧
  b.char_hidden_dim ≤ 4294967295 ∧ b.char_n_layers ≤ 4294967295 ∧
  b.word_hidden_dim ≤ 4294967295 ∧ b.word_n_layers ≤ 4294967295 ∧
  b.cluster_dim ≤ 4294967295 ∧ b.cluster_hidden_dim ≤ 4294967295 ∧
  b.cluster_n_layers ≤ 4294967295 ∧ b.pos_dim ≤ 4294967295 ∧ b.embed_dim ≤ 4294967295

instance (b : PostagModelBuilder) : Decidable b.unsigned_members := by
  unfold PostagModelBuilder.unsigned_members; infer_instance

/-- The field keys `from_json` asks the store for (lines 111-149), in the order
of the calls. -/
def from_json_keys : List String :=
  ["name", "n-chars", "n-postags", "char-dim", "char-hidden-dim", "char-n-layers",
   "word-hidden-dim", "word-n-layers", "cluster-dim", "cluster-hidden-dim",
   "cluster-n-layers", "pos-dim", "emb-dim"]

/-- The field keys `to_json` writes for the builder `b`, in the order of writing. -/
def PostagModelBuilder.to_json_keys (b : PostagModelBuilder) : List String :=
  b.to_json_records.flatten.map Prod.fst

/-- Whether `from_json` can read `key` from the tagger namespace of `s`: "name"
must be recorded, every other key must decode as unsigned. -/
def Model.readable (s : Model) (key : String) : Bool :=
  if key = "name" then (s.get Model.kPostaggerName "name").isSome else s.decodes key

/-- The first key, in the order of `from_json_keys`, that cannot be read from `s`. -/
def Model.first_unreadable (s : Model) : Option String :=
  from_json_keys.find? fun k => !s.readable k

/-! ## The CoNLL inference loop of `main` (`twpipe.cc`, lines 211-266) -/

/-- The classification `std::isspace` in the classic locale, which
`boost::algorithm::trim` uses: blank, tab, line feed, vertical tab, form feed,
carriage return. -/
def isspace (c : Char) : Bool :=
  c = ' ' ∨ c = '\t' ∨ c = '\n' ∨ c = Char.ofNat 11 ∨ c = Char.ofNat 12 ∨ c = '\r'

/-- The call `boost::algorithm::trim(buffer)`: white space is removed from both
ends. -/
def trim (buffer : List Char) : List Char :=
  ((buffer.dropWhile isspace).reverse.dropWhile isspace).reverse

/-- The call `boost::algorithm::split(data, buffer, boost::is_any_of("\t "))`
(no token compression): every tab and every blank ends a column, so the result
has one column more than `buffer` has separators. -/
def split : List Char → List (List Char)
  | [] => [[]]
  | c :: rest =>
    if c = '\t' ∨ c = ' ' then [] :: split rest
    else
      match split rest with
      | [] => [[c]]
      | column :: columns => (c :: column) :: columns

/-- An element access `v[i]` outside `v`, with the name of the vector, the index
and the size of the vector. -/
structure OutOfRange where
  vector : String
  index : Nat
  size : Nat
  deriving DecidableEq, Repr

/-- The element access `v[i]` of a `std::vector`; the access is defined only for
`i < v.size()`. -/
def at_index {α : Type} (vector : String) (v : List α) (i : Nat) : Except OutOfRange α :=
  match v.get? i with
  | some x => .ok x
  | none => .error ⟨vector, i, v.length⟩

/-- The local variables of the CoNLL branch of `main` (lines 229-236) and the text
sent to `std::cout`. The two `float` counters are kept as the number of
increments. -/
structure ConllState where
  tokens : List String
  gold_postags : List String
  postags : List String
  sentence : String
  n_pos_corr : Nat
  n_total : Nat
  cout : List String
  deriving DecidableEq, Repr

/-- The state before the first line is read. -/
def ConllState.initial : ConllState :=
  { tokens := [], gold_postags := [], postags := [], sentence := "", n_pos_corr := 0,
    n_total := 0, cout := [] }

/-- The body of the loop of lines 245-250 for the index `i`: one output row built
from `tokens[i]`, `postags[i]` and `gold_postags[i]`, and the two counters. -/
def conll_row (st : ConllState) (i : Nat) : Except OutOfRange ConllState := do
  let token ← at_index "tokens" st.tokens i
  let postag ← at_index "postags" st.postags i
  let gold ← at_index "gold_postags" st.gold_postags i
  pure { st with
    cout := st.cout ++
      [toString (i + 1) ++ "\t" ++ token ++ "\t_\t" ++ postag ++ "\t_\tGoldPOS=" ++ gold ++
        "\t_\t_\t_\n"]
    n_pos_corr := if postag = gold then st.n_pos_corr + 1 else st.n_pos_corr
    n_total := st.n_total + 1 }

/-- The body of the `while (std::getline(ifs, buffer))` loop (lines 238-263) for
one line. `pos_engine` is the pointer of line 213 (`none` for `nullptr`); a tagger
is the effect of `postag(tokens, postags)` on `postags`. -/
def conll_line (pos_engine : Option (List String → List String → List String))
    (st : ConllState) (line : String) : Except OutOfRange ConllState :=
  let buffer := trim line.toList
  if buffer.length = 0 then do
    let st :=
      match pos_engine with
      | some postag => { st with postags := postag st.tokens st.postags }
      | none => st
    let st := { st with cout := st.cout ++ ["# text = " ++ st.sentence ++ "\n"] }
    let st ← (List.range st.tokens.length).foldlM conll_row st
    pure { st with cout := st.cout ++ ["\n"], tokens := [], postags := [], gold_postags := [] }
  else if buffer.head? = some '#' then
    if buffer.take 9 = "# text = ".toList then
      pure { st with sentence := String.mk (buffer.drop 9) }
    else pure st
  else do
    let data := split buffer
    let token ← at_index "data" data 1
    let st := { st with tokens := st.tokens ++ [String.mk token] }
    let gold ← at_index "data" data 3
    pure { st with gold_postags := st.gold_postags ++ [String.mk gold] }

/-- The CoNLL branch of `main` (lines 211-266) on the lines `std::getline` yields
from the input file. `postag`, `parse` are the counts of the two flags, `tagger`
is the engine that `from_json` returns when `load_postag_model` is true. -/
def conll_main (postag parse : Bool) (tagger : List String → List String → List String)
    (lines : List String) : Except OutOfRange ConllState :=
  let load_postag_model := postag || parse
  let pos_engine := if load_postag_model then some tagger else none
  lines.foldlM (conll_line pos_engine) ConllState.initial

/-- A tagger that returns exactly one tag per token. -/
def one_tag_per_token (tagger : List String → List String → List String) : Prop :=
  ∀ tokens postags, (tagger tokens postags).length = tokens.length

/-- The line is blank, a comment, or has at least four columns. -/
def well_formed_line (line : String) : Bool :=
  let buffer := trim line.toList
  buffer.length = 0 || buffer.head? = some '#' || 4 ≤ (split buffer).length

/-- Sample tagger: every token is tagged "N". -/
def sample_tagger : List String → List String → List String :=
  fun tokens _ => tokens.map fun _ => "N"

/-! ## Lemmas on boost::lexical_cast -/

theorem digitChar_isDigit (m : Nat) (h : m < 10) :
    (Nat.digitChar m).isDigit = true ∧ (Nat.digitChar m).toNat - 48 = m ∧
      Nat.digitChar m ≠ '-' ∧ Nat.digitChar m ≠ '+' := by
  interval_cases m <;> decide

theorem foldl_toDigitsCore (fuel : Nat) : ∀ (n : Nat) (ds : List Char), n < fuel →
    (Nat.toDigitsCore 10 fuel n ds).foldl (fun acc c => acc.bind fun v =>
        if c.isDigit then some (10 * v + (c.toNat - 48)) else none) (some 0) =
      ds.foldl (fun acc c => acc.bind fun v =>
        if c.isDigit then some (10 * v + (c.toNat - 48)) else none) (some n) := by
  induction fuel with
  | zero => intro n ds h; omega
  | succ fuel ih =>
    intro n ds h
    obtain ⟨hd, hv, _, _⟩ := digitChar_isDigit (n % 10) (Nat.mod_lt _ (by decide))
    unfold Nat.toDigitsCore
    simp only []
    by_cases h0 : n / 10 = 0
    · simp only [h0, if_true, List.foldl_cons, Option.bind_some, hd, hv]
      have : n % 10 = n := Nat.mod_eq_of_lt (by omega)
      simp [this]
    · simp only [h0, if_false]
      rw [ih (n / 10) _ (by omega)]
      have : 10 * (n / 10) + n % 10 = n := Nat.div_add_mod n 10
      simp [hd, hv, this]

theorem toDigitsCore_head (fuel : Nat) : ∀ (n : Nat) (ds : List Char), 0 < fuel →
    ∃ c rest, Nat.toDigitsCore 10 fuel n ds = c :: rest ∧ ((c ≠ '-' ∧ c ≠ '+') ∨ ds.head? = some c) := by
  induction fuel with
  | zero => intro n ds h; omega
  | succ fuel ih =>
    intro n ds _
    obtain ⟨_, _, hm, hp⟩ := digitChar_isDigit (n % 10) (Nat.mod_lt _ (by decide))
    unfold Nat.toDigitsCore
    simp only []
    by_cases h0 : n / 10 = 0
    · simp only [h0, if_true]
      exact ⟨_, _, rfl, Or.inl ⟨hm, hp⟩⟩
    · simp only [h0, if_false]
      cases fuel with
      | zero => exact ⟨_, _, rfl, Or.inl ⟨hm, hp⟩⟩
      | succ f =>
        obtain ⟨c, rest, hc, hh⟩ := ih (n / 10) (Nat.digitChar (n % 10) :: ds) (by omega)
        refine ⟨c, rest, hc, Or.inl ?_⟩
        rcases hh with hh | hh
        · exact hh
        · simp at hh
          subst hh
          exact ⟨hm, hp⟩

theorem lexical_cast_round_trip (u : Nat) (h : u ≤ 4294967295) :
    lexical_cast_unsigned (lexical_cast_string u) = some u := by
  obtain ⟨c, rest, hc, hh⟩ := toDigitsCore_head (u + 1) u [] (by omega)
  have hne : c ≠ '-' ∧ c ≠ '+' := by
    rcases hh with hh | hh
    · exact hh
    · simp at hh
  have hv := foldl_toDigitsCore (u + 1) u [] (by omega)
  simp only [List.foldl_nil] at hv
  unfold lexical_cast_unsigned lexical_cast_string Nat.repr Nat.toDigits
  simp only [List.asString]
  rw [hc] at hv ⊢
  simp [hne.1, hne.2, digitsValue, hv, h]

/-! ## Lemmas on the store reads -/

theorem from_json_unsigned_error (s : Model) (k : String) (e : Error)
    (h : s.from_json_unsigned k = .error e) : e = .CorruptModelArtifact k := by
  unfold Model.from_json_unsigned Model.from_json at h
  cases hg : s.get Model.kPostaggerName k with
  | none => simp [hg] at h; exact h.symm
  | some t =>
    cases hl : lexical_cast_unsigned t with
    | none => simp [hg, hl] at h; exact h.symm
    | some u => simp [hg, hl] at h

theorem from_json_name_error (s : Model) (e : Error)
    (h : s.from_json Model.kPostaggerName "name" = .error e) :
    e = .CorruptModelArtifact "name" ∧ s.get Model.kPostaggerName "name" = none := by
  unfold Model.from_json at h
  cases hg : s.get Model.kPostaggerName "name" with
  | none => simp [hg] at h; exact ⟨h.symm, rfl⟩
  | some t => simp [hg] at h

theorem from_json_name_ok (s : Model) (name : String)
    (h : s.from_json Model.kPostaggerName "name" = .ok name) :
    s.get Model.kPostaggerName "name" = some name := by
  unfold Model.from_json at h
  cases hg : s.get Model.kPostaggerName "name" with
  | none => simp [hg] at h
  | some t => simp [hg] at h; simp [h]

theorem from_json_name_of_get (s : Model) (name : String)
    (h : s.get Model.kPostaggerName "name" = some name) :
    s.from_json Model.kPostaggerName "name" = .ok name := by
  simp [Model.from_json, h]

theorem reconcile_size_eq (member temp : Nat) (msg : String) :
    reconcile_size member temp msg =
      if member = 0 ∨ member = temp then .ok (if member = 0 then temp else member)
      else .error (.VocabularyMismatch msg) := by
  unfold reconcile_size BOOST_ASSERT_MSG
  by_cases h0 : member = 0
  · simp [h0, pure, Except.pure]
  · by_cases h1 : member = temp
    · simp [h0, h1, pure, Except.pure, bind, Except.bind]
    · simp [h0, h1, pure, Except.pure, bind, Except.bind]

theorem decodes_of_ok (s : Model) (k : String) (v : Nat) (h : s.from_json_unsigned k = .ok v) :
    s.decodes k = true ∧ s.unsigned_field k = v := by
  simp [Model.decodes, Model.unsigned_field, h]

theorem decodes_of_error (s : Model) (k : String) (e : Error)
    (h : s.from_json_unsigned k = .error e) : s.decodes k = false := by
  simp [Model.decodes, h]

theorem from_json_unsigned_of_decodes (s : Model) (k : String) (h : s.decodes k = true) :
    s.from_json_unsigned k = .ok (s.unsigned_field k) := by
  unfold Model.decodes at h
  unfold Model.unsigned_field
  cases hr : s.from_json_unsigned k with
  | error e => simp [hr] at h
  | ok v => rfl

/-- The three outcomes of the field reads: a read fails (`CorruptModelArtifact`
naming the field), a vocabulary check fails, or every read succeeds and the
members are `resolved`. -/
theorem from_json_fields_cases (s : Model) (b : PostagModelBuilder) :
    (∃ f, b.from_json_fields s = .error (.CorruptModelArtifact f) ∧
        ((f = "name" ∧ s.get Model.kPostaggerName "name" = none) ∨
         (f ∈ numeric_fields ∧ s.decodes f = false))) ∨
    (∃ msg, b.from_json_fields s = .error (.VocabularyMismatch msg) ∧ ¬ sizes_agree s b) ∨
    (b.from_json_fields s = .ok (b.resolved s) ∧
      (s.get Model.kPostaggerName "name").isSome = true ∧
      (∀ f ∈ numeric_fields, s.decodes f = true) ∧ sizes_agree s b) := by
  cases h0 : s.from_json Model.kPostaggerName "name" with
  | error e =>
    obtain ⟨he, hg⟩ := from_json_name_error s e h0
    subst he
    refine Or.inl ⟨"name", ?_, Or.inl ⟨rfl, hg⟩⟩
    simp [PostagModelBuilder.from_json_fields, bind, Except.bind, h0]
  | ok name =>
  have hname := from_json_name_ok s name h0
  cases h1 : s.from_json_unsigned "n-chars" with
  | error e =>
    have he := from_json_unsigned_error s _ e h1
    subst he
    refine Or.inl ⟨"n-chars", ?_, Or.inr ⟨by simp [numeric_fields], decodes_of_error s _ _ h1⟩⟩
    simp [PostagModelBuilder.from_json_fields, bind, Except.bind, h0, h1]
  | ok c =>
  obtain ⟨hd1, hu1⟩ := decodes_of_ok s _ _ h1
  by_cases hc : b.char_size = 0 ∨ b.char_size = c
  swap
  · refine Or.inr (Or.inl ⟨"[postag|model_builder] char-size mismatch!", ?_, ?_⟩)
    · simp [PostagModelBuilder.from_json_fields, bind, Except.bind, h0, h1, reconcile_size_eq, hc]
    · simp [sizes_agree, hu1, hc]
  cases h2 : s.from_json_unsigned "n-postags" with
  | error e =>
    have he := from_json_unsigned_error s _ e h2
    subst he
    refine Or.inl ⟨"n-postags", ?_, Or.inr ⟨by simp [numeric_fields], decodes_of_error s _ _ h2⟩⟩
    simp [PostagModelBuilder.from_json_fields, bind, Except.bind, h0, h1, h2, reconcile_size_eq, hc]
  | ok p =>
  obtain ⟨hd2, hu2⟩ := decodes_of_ok s _ _ h2
  by_cases hp : b.pos_size = 0 ∨ b.pos_size = p
  swap
  · refine Or.inr (Or.inl ⟨"[postag|model_builder] pos-size mismatch!", ?_, ?_⟩)
    · simp [PostagModelBuilder.from_json_fields, bind, Except.bind, h0, h1, h2, reconcile_size_eq,
        hc, hp]
    · simp [sizes_agree, hu2, hp]
  cases h3 : s.from_json_unsigned "char-dim" with
  | error e =>
    have he := from_json_unsigned_error s _ e h3
    subst he
    refine Or.inl ⟨"char-dim", ?_, Or.inr ⟨by simp [numeric_fields], decodes_of_error s _ _ h3⟩⟩
    simp [PostagModelBuilder.from_json_fields, bind, Except.bind, h0, h1, h2, h3,
      reconcile_size_eq, hc, hp]
  | ok v3 =>
  obtain ⟨hd3, hu3⟩ := decodes_of_ok s _ _ h3
  cases h4 : s.from_json_unsigned "char-hidden-dim" with
  | error e =>
    have he := from_json_unsigned_error s _ e h4
    subst he
    refine Or.inl ⟨"char-hidden-dim", ?_, Or.inr ⟨by simp [numeric_fields], decodes_of_error s _ _ h4⟩⟩
    simp [PostagModelBuilder.from_json_fields, bind, Except.bind, h0, h1, h2, h3, h4,
      reconcile_size_eq, hc, hp]
  | ok v4 =>
  obtain ⟨hd4, hu4⟩ := decodes_of_ok s _ _ h4
  cases h5 : s.from_json_unsigned "char-n-layers" with
  | error e =>
    have he := from_json_unsigned_error s _ e h5
    subst he
    refine Or.inl ⟨"char-n-layers", ?_, Or.inr ⟨by simp [numeric_fields], decodes_of_error s _ _ h5⟩⟩
    simp [PostagModelBuilder.from_json_fields, bind, Except.bind, h0, h1, h2, h3, h4, h5,
      reconcile_size_eq, hc, hp]
  | ok v5 =>
  obtain ⟨hd5, hu5⟩ := decodes_of_ok s _ _ h5
  cases h6 : s.from_json_unsigned "word-hidden-dim" with
  | error e =>
    have he := from_json_unsigned_error s _ e h6
    subst he
    refine Or.inl ⟨"word-hidden-dim", ?_, Or.inr ⟨by simp [numeric_fields], decodes_of_error s _ _ h6⟩⟩
    simp [PostagModelBuilder.from_json_fields, bind, Except.bind, h0, h1, h2, h3, h4, h5, h6,
      reconcile_size_eq, hc, hp]
  | ok v6 =>
  obtain ⟨hd6, hu6⟩ := decodes_of_ok s _ _ h6
  cases h7 : s.from_json_unsigned "word-n-layers" with
  | error e =>
    have he := from_json_unsigned_error s _ e h7
    subst he
    refine Or.inl ⟨"word-n-layers", ?_, Or.inr ⟨by simp [numeric_fields], decodes_of_error s _ _ h7⟩⟩
    simp [PostagModelBuilder.from_json_fields, bind, Except.bind, h0, h1, h2, h3, h4, h5, h6, h7,
      reconcile_size_eq, hc, hp]
  | ok v7 =>
  obtain ⟨hd7, hu7⟩ := decodes_of_ok s _ _ h7
  cases h8 : s.from_json_unsigned "cluster-dim" with
  | error e =>
    have he := from_json_unsigned_error s _ e h8
    subst he
    refine Or.inl ⟨"cluster-dim", ?_, Or.inr ⟨by simp [numeric_fields], decodes_of_error s _ _ h8⟩⟩
    simp [PostagModelBuilder.from_json_fields, bind, Except.bind, h0, h1, h2, h3, h4, h5, h6, h7, h8,
      reconcile_size_eq, hc, hp]
  | ok v8 =>
  obtain ⟨hd8, hu8⟩ := decodes_of_ok s _ _ h8
  cases h9 : s.from_json_unsigned "cluster-hidden-dim" with
  | error e =>
    have he := from_json_unsigned_error s _ e h9
    subst he
    refine Or.inl ⟨"cluster-hidden-dim", ?_, Or.inr ⟨by simp [numeric_fields], decodes_of_error s _ _ h9⟩⟩
    simp [PostagModelBuilder.from_json_fields, bind, Except.bind, h0, h1, h2, h3, h4, h5, h6, h7, h8, h9,
      reconcile_size_eq, hc, hp]
  | ok v9 =>
  obtain ⟨hd9, hu9⟩ := decodes_of_ok s _ _ h9
  cases h10 : s.from_json_unsigned "cluster-n-layers" with
  | error e =>
    have he := from_json_unsigned_error s _ e h10
    subst he
    refine Or.inl ⟨"cluster-n-layers", ?_, Or.inr ⟨by simp [numeric_fields], decodes_of_error s _ _ h10⟩⟩
    simp [PostagModelBuilder.from_json_fields, bind, Except.bind, h0, h1, h2, h3, h4, h5, h6, h7, h8, h9, h10,
      reconcile_size_eq, hc, hp]
  | ok v10 =>
  obtain ⟨hd10, hu10⟩ := decodes_of_ok s _ _ h10
  cases h11 : s.from_json_unsigned "pos-dim" with
  | error e =>
    have he := from_json_unsigned_error s _ e h11
    subst he
    refine Or.inl ⟨"pos-dim", ?_, Or.inr ⟨by simp [numeric_fields], decodes_of_error s _ _ h11⟩⟩
    simp [PostagModelBuilder.from_json_fields, bind, Except.bind, h0, h1, h2, h3, h4, h5, h6, h7, h8, h9, h10, h11,
      reconcile_size_eq, hc, hp]
  | ok v11 =>
  obtain ⟨hd11, hu11⟩ := decodes_of_ok s _ _ h11
  cases h12 : s.from_json_unsigned "emb-dim" with
  | error e =>
    have he := from_json_unsigned_error s _ e h12
    subst he
    refine Or.inl ⟨"emb-dim", ?_, Or.inr ⟨by simp [numeric_fields], decodes_of_error s _ _ h12⟩⟩
    simp [PostagModelBuilder.from_json_fields, bind, Except.bind, h0, h1, h2, h3, h4, h5, h6, h7, h8, h9, h10, h11, h12,
      reconcile_size_eq, hc, hp]
  | ok v12 =>
  obtain ⟨hd12, hu12⟩ := decodes_of_ok s _ _ h12
  refine Or.inr (Or.inr ⟨?_, ?_, ?_, ?_⟩)
  · simp [PostagModelBuilder.from_json_fields, bind, Except.bind, pure, Except.pure, h0, h1, h2, h3, h4, h5, h6, h7, h8, h9, h10, h11, h12,
      reconcile_size_eq, hc, hp, PostagModelBuilder.resolved, hname, hu1, hu2, hu3, hu4, hu5, hu6, hu7, hu8, hu9, hu10, hu11, hu12]
  · simp [hname]
  · intro f hf
    simp only [numeric_fields, List.mem_cons, List.mem_singleton, List.not_mem_nil, or_false] at hf
    rcases hf with h | h | h | h | h | h | h | h | h | h | h | h <;> subst h <;> assumption
  · simp [sizes_agree, hu1, hu2, hc, hp]

/-! ## Lemmas on the dispatch chains -/

theorem tag_of_name_eq (name : String) :
    tag_of_name name =
      if name = "char-gru" then some .kCharacterGRUPostagModel
      else if name = "char-lstm" then some .kCharacterLSTMPostagModel
      else if name = "char-gru-crf" then some .kCharacterGRUPostagCRFModel
      else if name = "char-lstm-crf" then some .kCharacterLSTMPostagCRFModel
      else if name = "char-gru-wcluster" then some .kCharacterClusterGRUPostagModel
      else if name = "char-lstm-wcluster" then some .kCharacterClusterLSTMPostagModel
      else none := by
  unfold tag_of_name PostagModelBuilder.construct Conf.named
  simp only []
  split_ifs <;> rfl

theorem tag_of_name_isSome_iff (name : String) :
    (tag_of_name name).isSome = true ↔ name ∈ catalog_names := by
  rw [tag_of_name_eq]
  unfold catalog_names
  simp only [List.mem_cons, List.mem_singleton, List.not_mem_nil, or_false]
  split_ifs <;> simp_all

theorem tag_of_name_eq_none_iff (name : String) :
    tag_of_name name = none ↔ name ∉ catalog_names := by
  rw [← tag_of_name_isSome_iff]
  cases tag_of_name name <;> simp

theorem from_json_dispatch_unknown (b : PostagModelBuilder)
    (h : tag_of_name b.model_name = none) :
    b.from_json_dispatch = .error (.UnknownVariant b.model_name) := by
  rw [tag_of_name_eq] at h
  unfold PostagModelBuilder.from_json_dispatch
  split_ifs at h ⊢
  rfl

theorem from_json_dispatch_known (b : PostagModelBuilder) (t : ModelType)
    (h : tag_of_name b.model_name = some t) :
    ∃ engine, ({ b with model_type := some t } : PostagModelBuilder).build = .ok engine ∧
      b.from_json_dispatch = .ok (t, engine) := by
  rw [tag_of_name_eq] at h
  by_cases h1 : b.model_name = "char-gru"
  · rw [if_pos h1] at h
    cases h
    refine ⟨.CharacterGRUPostagModel 
      [b.char_size, b.char_dim, b.char_hidden_dim, b.char_n_layers, b.embed_dim,
       b.word_hidden_dim, b.word_n_layers, b.pos_dim], ?_, ?_⟩
    · simp [PostagModelBuilder.build]
    · simp [PostagModelBuilder.from_json_dispatch, h1]
  rw [if_neg h1] at h
  by_cases h2 : b.model_name = "char-lstm"
  · rw [if_pos h2] at h
    cases h
    refine ⟨.CharacterLSTMPostagModel 
      [b.char_size, b.char_dim, b.char_hidden_dim, b.char_n_layers, b.embed_dim,
       b.word_hidden_dim, b.word_n_layers, b.pos_dim], ?_, ?_⟩
    · simp [PostagModelBuilder.build]
    · simp [PostagModelBuilder.from_json_dispatch, h1, h2]
  rw [if_neg h2] at h
  by_cases h3 : b.model_name = "char-gru-crf"
  · rw [if_pos h3] at h
    cases h
    refine ⟨.CharacterGRUCRFPostagModel 
      [b.char_size, b.char_dim, b.char_hidden_dim, b.char_n_layers, b.embed_dim,
       b.word_hidden_dim, b.word_n_layers, b.pos_dim], ?_, ?_⟩
    · simp [PostagModelBuilder.build]
    · simp [PostagModelBuilder.from_json_dispatch, h1, h2, h3]
  rw [if_neg h3] at h
  by_cases h4 : b.model_name = "char-lstm-crf"
  · rw [if_pos h4] at h
    cases h
    refine ⟨.CharacterLSTMCRFPostagModel 
      [b.char_size, b.char_dim, b.char_hidden_dim, b.char_n_layers, b.embed_dim,
       b.word_hidden_dim, b.word_n_layers, b.pos_dim], ?_, ?_⟩
    · simp [PostagModelBuilder.build]
    · simp [PostagModelBuilder.from_json_dispatch, h1, h2, h3, h4]
  rw [if_neg h4] at h
  by_cases h5 : b.model_name = "char-gru-wcluster"
  · rw [if_pos h5] at h
    cases h
    refine ⟨.CharacterGRUWithClusterPostagModel 
      [b.char_size, b.char_dim, b.char_hidden_dim, b.char_n_layers, b.embed_dim,
       b.word_hidden_dim, b.word_n_layers, b.cluster_dim, b.cluster_hidden_dim,
       b.cluster_n_layers, b.pos_dim], ?_, ?_⟩
    · simp [PostagModelBuilder.build]
    · simp [PostagModelBuilder.from_json_dispatch, h1, h2, h3, h4, h5]
  rw [if_neg h5] at h
  by_cases h6 : b.model_name = "char-lstm-wcluster"
  · rw [if_pos h6] at h
    cases h
    refine ⟨.CharacterLSTMWithClusterPostagModel 
      [b.char_size, b.char_dim, b.char_hidden_dim, b.char_n_layers, b.embed_dim,
       b.word_hidden_dim, b.word_n_layers, b.cluster_dim, b.cluster_hidden_dim,
       b.cluster_n_layers, b.pos_dim], ?_, ?_⟩
    · simp [PostagModelBuilder.build]
    · simp [PostagModelBuilder.from_json_dispatch, h1, h2, h3, h4, h5, h6]
  rw [if_neg h6] at h
  cases h

theorem build_of_tag (b : PostagModelBuilder) (t : ModelType) (h : b.model_type = some t) :
    ∃ engine, b.build = .ok engine ∧ engine.args = b.expected_args := by
  unfold PostagModelBuilder.build PostagModelBuilder.expected_args
  cases t <;>
    simp [h, PostagModel.args, PostagModelBuilder.plain_args, PostagModelBuilder.cluster_args]

theorem from_json_of_fields_error (load : Model → String → PostagModel → Except Error (List Nat))
    (s : Model) (b : PostagModelBuilder) (e : Error) (h : b.from_json_fields s = .error e) :
    PostagModelBuilder.from_json load s b = .error e := by
  simp [PostagModelBuilder.from_json, bind, Except.bind, h]

theorem from_json_of_fields_ok (load : Model → String → PostagModel → Except Error (List Nat))
    (s : Model) (b r : PostagModelBuilder) (h : b.from_json_fields s = .ok r) :
    PostagModelBuilder.from_json load s b =
      match r.from_json_dispatch with
      | .error e => .error e
      | .ok (t, engine) =>
        match load s Model.kPostaggerName engine with
        | .error e => .error e
        | .ok parameters =>
          .ok { builder := { r with model_type := some t }, engine := engine,
                parameters := parameters } := by
  simp only [PostagModelBuilder.from_json, bind, Except.bind, h]
  cases hd : r.from_json_dispatch with
  | error e => rfl
  | ok te =>
    obtain ⟨t, engine⟩ := te
    simp only []
    cases hl : load s Model.kPostaggerName engine with
    | error e => rfl
    | ok p => rfl

theorem from_json_ok_inv (load : Model → String → PostagModel → Except Error (List Nat))
    (s : Model) (b : PostagModelBuilder) (r : Reconstructed)
    (h : PostagModelBuilder.from_json load s b = .ok r) :
    b.from_json_fields s = .ok (b.resolved s) ∧
    (∀ f ∈ numeric_fields, s.decodes f = true) ∧ sizes_agree s b ∧
    ∃ t, (b.resolved s).from_json_dispatch = .ok (t, r.engine) ∧
      r.builder = { b.resolved s with model_type := some t } ∧
      load s Model.kPostaggerName r.engine = .ok r.parameters := by
  rcases from_json_fields_cases s b with ⟨f, hf, _⟩ | ⟨msg, hm, _⟩ | ⟨hok, _, hdec, hsz⟩
  · rw [from_json_of_fields_error load s b _ hf] at h
    cases h
  · rw [from_json_of_fields_error load s b _ hm] at h
    cases h
  · refine ⟨hok, hdec, hsz, ?_⟩
    rw [from_json_of_fields_ok load s b _ hok] at h
    cases hd : (b.resolved s).from_json_dispatch with
    | error e => simp [hd] at h
    | ok te =>
      obtain ⟨t, engine⟩ := te
      simp only [hd] at h
      cases hl : load s Model.kPostaggerName engine with
      | error e => simp [hl] at h
      | ok p =>
        simp only [hl] at h
        cases h
        exact ⟨t, rfl, rfl, hl⟩

theorem from_json_error_of_not_sizes_agree
    (load : Model → String → PostagModel → Except Error (List Nat))
    (s : Model) (b : PostagModelBuilder) (h : ¬ sizes_agree s b) :
    (∃ f, PostagModelBuilder.from_json load s b = .error (.CorruptModelArtifact f)) ∨
    (∃ msg, PostagModelBuilder.from_json load s b = .error (.VocabularyMismatch msg)) := by
  rcases from_json_fields_cases s b with ⟨f, hf, _⟩ | ⟨msg, hm, _⟩ | ⟨_, _, _, hsz⟩
  · exact Or.inl ⟨f, from_json_of_fields_error load s b _ hf⟩
  · exact Or.inr ⟨msg, from_json_of_fields_error load s b _ hm⟩
  · exact absurd hsz h

theorem from_json_dispatch_error (b : PostagModelBuilder) (e : Error)
    (h : b.from_json_dispatch = .error e) : e = .UnknownVariant b.model_name := by
  cases ht : tag_of_name b.model_name with
  | none =>
    rw [from_json_dispatch_unknown b ht] at h
    cases h
    rfl
  | some t =>
    obtain ⟨engine, _, hd⟩ := from_json_dispatch_known b t ht
    rw [hd] at h
    cases h

theorem required_fields_subset (name f : String) (h : f ∈ required_fields name)
    (hne : f ≠ "name") : f ∈ numeric_fields := by
  unfold required_fields PostagModelBuilder.to_json_records at h
  unfold numeric_fields
  split_ifs at h <;> simp at h <;> simp <;> tauto

theorem from_json_fields_of_records (s : Model) (b0 bv : PostagModelBuilder)
    (hrec : s.records bv) (hc : b0.char_size = 0 ∨ b0.char_size = bv.char_size)
    (hp : b0.pos_size = 0 ∨ b0.pos_size = bv.pos_size) :
    b0.from_json_fields s = .ok { bv with model_type := b0.model_type } := by
  obtain ⟨h0, h1, h2, h3, h4, h5, h6, h7, h8, h9, h10, h11, h12⟩ := hrec
  have hcs : (if b0.char_size = 0 then bv.char_size else b0.char_size) = bv.char_size := by
    rcases hc with h | h <;> simp [h]
  have hps : (if b0.pos_size = 0 then bv.pos_size else b0.pos_size) = bv.pos_size := by
    rcases hp with h | h <;> simp [h]
  simp [PostagModelBuilder.from_json_fields, bind, Except.bind, pure, Except.pure,
    from_json_name_of_get s _ h0, h1, h2, h3, h4, h5, h6, h7, h8, h9, h10, h11, h12,
    reconcile_size_eq, hc, hp, hcs, hps]

/-! ## What `to_json` followed by `from_json` does -/

theorem to_json_payload_cluster (b : PostagModelBuilder)
    (hcl : b.model_type = some .kCharacterClusterGRUPostagModel ∨
      b.model_type = some .kCharacterClusterLSTMPostagModel) :
    (b.to_json Model.empty).payload =
      [("postagger", "name", b.model_name),
       ("postagger", "n-chars", lexical_cast_string b.char_size),
       ("postagger", "char-dim", lexical_cast_string b.char_dim),
       ("postagger", "char-hidden-dim", lexical_cast_string b.char_hidden_dim),
       ("postagger", "char-n-layers", lexical_cast_string b.char_n_layers),
       ("postagger", "word-hidden-dim", lexical_cast_string b.word_hidden_dim),
       ("postagger", "word-n-layers", lexical_cast_string b.word_n_layers),
       ("postagger", "pos-dim", lexical_cast_string b.pos_dim),
       ("postagger", "n-postags", lexical_cast_string b.pos_size),
       ("postagger", "emb-dim", lexical_cast_string b.embed_dim),
       ("postagger", "cluster-dim", lexical_cast_string b.char_dim),
       ("postagger", "cluster-hidden-dim", lexical_cast_string b.char_hidden_dim),
       ("postagger", "cluster-n-layers", lexical_cast_string b.char_n_layers)] := by
  simp [PostagModelBuilder.to_json, PostagModelBuilder.to_json_records, Model.to_json, Model.put,
    Model.get, Model.empty, Model.kPostaggerName, hcl]

theorem to_json_payload_plain (b : PostagModelBuilder)
    (hcl : ¬ (b.model_type = some .kCharacterClusterGRUPostagModel ∨
      b.model_type = some .kCharacterClusterLSTMPostagModel)) :
    (b.to_json Model.empty).payload =
      [("postagger", "name", b.model_name),
       ("postagger", "n-chars", lexical_cast_string b.char_size),
       ("postagger", "char-dim", lexical_cast_string b.char_dim),
       ("postagger", "char-hidden-dim", lexical_cast_string b.char_hidden_dim),
       ("postagger", "char-n-layers", lexical_cast_string b.char_n_layers),
       ("postagger", "word-hidden-dim", lexical_cast_string b.word_hidden_dim),
       ("postagger", "word-n-layers", lexical_cast_string b.word_n_layers),
       ("postagger", "pos-dim", lexical_cast_string b.pos_dim),
       ("postagger", "n-postags", lexical_cast_string b.pos_size),
       ("postagger", "emb-dim", lexical_cast_string b.embed_dim)] := by
  simp [PostagModelBuilder.to_json, PostagModelBuilder.to_json_records, Model.to_json, Model.put,
    Model.get, Model.empty, Model.kPostaggerName, hcl]

/-- The store `to_json` writes for a cluster variant records the character
members under the cluster keys. -/
theorem records_to_json_cluster (b : PostagModelBuilder)
    (hcl : b.model_type = some .kCharacterClusterGRUPostagModel ∨
      b.model_type = some .kCharacterClusterLSTMPostagModel)
    (hu : b.unsigned_members) :
    (b.to_json Model.empty).records
      { b with cluster_dim := b.char_dim, cluster_hidden_dim := b.char_hidden_dim,
               cluster_n_layers := b.char_n_layers } := by
  obtain ⟨h1, h2, h3, h4, h5, h6, h7, _, _, _, h11, h12⟩ := hu
  simp [Model.records, Model.from_json_unsigned, Model.from_json, Model.get,
    to_json_payload_cluster b hcl, Model.kPostaggerName, lexical_cast_round_trip,
    h1, h2, h3, h4, h5, h6, h7, h11, h12]

/-- Reconstruction from a store that records the members of `bv`: `from_json`
constructs the engine `build` constructs for `bv` and hands it to the loader. -/
theorem from_json_of_records (load : Model → String → PostagModel → Except Error (List Nat))
    (s : Model) (b0 bv : PostagModelBuilder)
    (hcat : bv.model_name ∈ catalog_names) (htag : bv.model_type = tag_of_name bv.model_name)
    (hrec : s.records bv) (hc : b0.char_size = 0 ∨ b0.char_size = bv.char_size)
    (hp : b0.pos_size = 0 ∨ b0.pos_size = bv.pos_size) :
    ∃ engine, bv.build = .ok engine ∧
      PostagModelBuilder.from_json load s b0 =
        (load s Model.kPostaggerName engine).map fun parameters =>
          { builder := bv, engine := engine, parameters := parameters } := by
  have hsome := (tag_of_name_isSome_iff bv.model_name).mpr hcat
  obtain ⟨t, ht⟩ := Option.isSome_iff_exists.mp hsome
  have hfields := from_json_fields_of_records s b0 bv hrec hc hp
  obtain ⟨engine, hbuild, hdisp⟩ :=
    from_json_dispatch_known { bv with model_type := b0.model_type } t ht
  have hbv : ({ bv with model_type := some t } : PostagModelBuilder) = bv := by
    cases bv
    simp_all
  refine ⟨engine, ?_, ?_⟩
  · rw [← hbv]
    exact hbuild
  · rw [from_json_of_fields_ok load s b0 _ hfields, hdisp]
    simp only []
    cases hl : load s Model.kPostaggerName engine with
    | error e => rfl
    | ok p =>
      simp only [Except.map]
      rw [hbv]

/-- Round trip of a cluster variant: `from_json` succeeds up to the loader, and
the cluster members come back as the character members. -/
theorem round_trip_cluster (load : Model → String → PostagModel → Except Error (List Nat))
    (b : PostagModelBuilder)
    (hcl : b.model_type = some .kCharacterClusterGRUPostagModel ∨
      b.model_type = some .kCharacterClusterLSTMPostagModel)
    (htag : b.model_type = tag_of_name b.model_name) (hu : b.unsigned_members) :
    ∃ engine,
      PostagModelBuilder.from_json load (b.to_json Model.empty) b =
        (load (b.to_json Model.empty) Model.kPostaggerName engine).map fun parameters =>
          { builder := { b with cluster_dim := b.char_dim,
                                cluster_hidden_dim := b.char_hidden_dim,
                                cluster_n_layers := b.char_n_layers }
            engine := engine, parameters := parameters } := by
  have hcat : b.model_name ∈ catalog_names := by
    rw [← tag_of_name_isSome_iff, ← htag]
    rcases hcl with h | h <;> simp [h]
  obtain ⟨engine, _, h⟩ := from_json_of_records load (b.to_json Model.empty) b
    { b with cluster_dim := b.char_dim, cluster_hidden_dim := b.char_hidden_dim,
             cluster_n_layers := b.char_n_layers }
    hcat htag (records_to_json_cluster b hcl hu) (Or.inr rfl) (Or.inr rfl)
  exact ⟨engine, h⟩

/-- Round trip of a variant without cluster record: `from_json` fails on the
"cluster-dim" field that `to_json` did not write. -/
theorem round_trip_plain (load : Model → String → PostagModel → Except Error (List Nat))
    (b : PostagModelBuilder)
    (hcl : ¬ (b.model_type = some .kCharacterClusterGRUPostagModel ∨
      b.model_type = some .kCharacterClusterLSTMPostagModel))
    (hu : b.unsigned_members) :
    PostagModelBuilder.from_json load (b.to_json Model.empty) b =
      .error (.CorruptModelArtifact "cluster-dim") := by
  obtain ⟨h1, h2, h3, h4, h5, h6, h7, _, _, _, h11, h12⟩ := hu
  apply from_json_of_fields_error
  simp [PostagModelBuilder.from_json_fields, bind, Except.bind, Model.from_json_unsigned,
    Model.from_json, Model.get, to_json_payload_plain b hcl, Model.kPostaggerName,
    lexical_cast_round_trip, reconcile_size_eq, h1, h2, h3, h4, h5, h6, h7, h11, h12]

/-! ## The claims -/

/-- C1 (round-trip law), evaluated on the code. For the builder constructed from
"char-gru-wcluster" with cluster-dim 8, cluster-hidden-dim 24, cluster-n-layer 2
(char-dim 16, char-hidden-dim 32, char-n-layer 1), `to_json` into the empty store
followed by `from_json` succeeds but leaves cluster_dim = 16, cluster_hidden_dim =
32, cluster_n_layers = 1: the values of the character members, which `to_json`
writes under the cluster keys. For the builder constructed from "char-gru" the
same round trip fails, whatever the parameter loader, with `CorruptModelArtifact`
on "cluster-dim", which `to_json` does not write for that variant and `from_json`
reads for every variant. -/
theorem C1_round_trip_changes_cluster_members :
    PostagModelBuilder.from_json load_nothing
        ((sample_builder "char-gru-wcluster").to_json Model.empty)
        (sample_builder "char-gru-wcluster") =
      .ok { builder := { sample_builder "char-gru-wcluster" with
                           cluster_dim := 16, cluster_hidden_dim := 32, cluster_n_layers := 1 }
            engine := .CharacterGRUWithClusterPostagModel [50, 16, 32, 1, 100, 64, 1, 16, 32, 1, 8]
            parameters := [] } ∧
    ((sample_builder "char-gru-wcluster").cluster_dim,
      (sample_builder "char-gru-wcluster").cluster_hidden_dim,
      (sample_builder "char-gru-wcluster").cluster_n_layers) = (8, 24, 2) ∧
    ∀ load, PostagModelBuilder.from_json load ((sample_builder "char-gru").to_json Model.empty)
        (sample_builder "char-gru") = .error (.CorruptModelArtifact "cluster-dim") :=
  ⟨by decide, by decide, fun _ => rfl⟩

/-- C2, the claim as stated fails: the store records name "char-gru", "n-chars" =
"abc" and "n-postags" = "13"; the builder expects pos_size = 12 (non-zero, and
different from the recorded 13) and char_size = 0. `from_json` stops at the
undecodable "n-chars", read before "n-postags": the failure is
`CorruptModelArtifact`, not a vocabulary mismatch. -/
theorem C2_counterexample :
    ({ sample_builder "char-gru" with char_size := 0 } : PostagModelBuilder).pos_size = 12 ∧
    sample_store_bad_chars.from_json_unsigned "n-postags" = .ok 13 ∧
    PostagModelBuilder.from_json load_nothing sample_store_bad_chars
        { sample_builder "char-gru" with char_size := 0 } =
      .error (.CorruptModelArtifact "n-chars") ∧
    ¬ ∃ msg, PostagModelBuilder.from_json load_nothing sample_store_bad_chars
        { sample_builder "char-gru" with char_size := 0 } = .error (.VocabularyMismatch msg) := by
  have h2 : PostagModelBuilder.from_json load_nothing sample_store_bad_chars
        { sample_builder "char-gru" with char_size := 0 } =
      .error (.CorruptModelArtifact "n-chars") := by decide
  refine ⟨by decide, by decide, h2, ?_⟩
  rintro ⟨msg, h⟩
  rw [h2] at h
  cases h

/-- C2 as amended. Whenever the caller's non-zero char_size (resp. pos_size)
differs from the unsigned value recorded under "n-chars" (resp. "n-postags"),
`from_json` fails, so it returns no engine and loads no parameter blob, and the
failure is a `CorruptModelArtifact` or a `VocabularyMismatch`. It is the
char-size mismatch when "name" is recorded; it is the pos-size mismatch when
"name" is recorded, "n-chars" decodes and char_size is 0 or equal to it. -/
theorem C2_vocabulary_mismatch (load : Model → String → PostagModel → Except Error (List Nat))
    (s : Model) (b : PostagModelBuilder) (v : Nat) :
    (b.char_size ≠ 0 → s.from_json_unsigned "n-chars" = .ok v → b.char_size ≠ v →
      ((∃ f, PostagModelBuilder.from_json load s b = .error (.CorruptModelArtifact f)) ∨
       (∃ msg, PostagModelBuilder.from_json load s b = .error (.VocabularyMismatch msg))) ∧
      ((s.get Model.kPostaggerName "name").isSome = true →
        PostagModelBuilder.from_json load s b =
          .error (.VocabularyMismatch "[postag|model_builder] char-size mismatch!"))) ∧
    (b.pos_size ≠ 0 → s.from_json_unsigned "n-postags" = .ok v → b.pos_size ≠ v →
      ((∃ f, PostagModelBuilder.from_json load s b = .error (.CorruptModelArtifact f)) ∨
       (∃ msg, PostagModelBuilder.from_json load s b = .error (.VocabularyMismatch msg))) ∧
      ((s.get Model.kPostaggerName "name").isSome = true →
        (∃ c, s.from_json_unsigned "n-chars" = .ok c ∧ (b.char_size = 0 ∨ b.char_size = c)) →
        PostagModelBuilder.from_json load s b =
          .error (.VocabularyMismatch "[postag|model_builder] pos-size mismatch!"))) := by
  refine ⟨fun h0 hv hne => ⟨?_, fun hn => ?_⟩, fun h0 hv hne => ⟨?_, fun hn hc => ?_⟩⟩
  · apply from_json_error_of_not_sizes_agree
    simp [sizes_agree, (decodes_of_ok s _ _ hv).2, h0, hne]
  · apply from_json_of_fields_error
    obtain ⟨name, hname⟩ := Option.isSome_iff_exists.mp hn
    simp [PostagModelBuilder.from_json_fields, bind, Except.bind, from_json_name_of_get s name hname,
      hv, reconcile_size_eq, h0, hne]
  · apply from_json_error_of_not_sizes_agree
    simp [sizes_agree, (decodes_of_ok s _ _ hv).2, h0, hne]
  · apply from_json_of_fields_error
    obtain ⟨name, hname⟩ := Option.isSome_iff_exists.mp hn
    obtain ⟨c, hcv, hcc⟩ := hc
    simp [PostagModelBuilder.from_json_fields, bind, Except.bind, from_json_name_of_get s name hname,
      hv, hcv, reconcile_size_eq, h0, hne, hcc]

/-- C2, witness: a complete store recording 51 characters, read by a builder
that expects 50, fails with the char-size mismatch. -/
theorem C2_vocabulary_mismatch_witness :
    PostagModelBuilder.from_json load_nothing
        ((({ sample_builder "char-gru-wcluster" with char_size := 51 } :
            PostagModelBuilder)).to_json Model.empty)
        (sample_builder "char-gru-wcluster") =
      .error (.VocabularyMismatch "[postag|model_builder] char-size mismatch!") :=
  ((C2_vocabulary_mismatch load_nothing _ (sample_builder "char-gru-wcluster") 51).1
    (by decide) (by decide) (by decide)).2 (by decide)

/-- C3. When `from_json` succeeds: a char_size that was 0 becomes the value
recorded under "n-chars", a pos_size that was 0 becomes the value recorded under
"n-postags", and a non-zero char_size or pos_size is unchanged and equals the
recorded value. -/
theorem C3_adopts_recorded_sizes (load : Model → String → PostagModel → Except Error (List Nat))
    (s : Model) (b : PostagModelBuilder) (r : Reconstructed)
    (h : PostagModelBuilder.from_json load s b = .ok r) :
    (b.char_size = 0 → s.from_json_unsigned "n-chars" = .ok r.builder.char_size) ∧
    (b.pos_size = 0 → s.from_json_unsigned "n-postags" = .ok r.builder.pos_size) ∧
    (b.char_size ≠ 0 →
      r.builder.char_size = b.char_size ∧ s.from_json_unsigned "n-chars" = .ok b.char_size) ∧
    (b.pos_size ≠ 0 →
      r.builder.pos_size = b.pos_size ∧ s.from_json_unsigned "n-postags" = .ok b.pos_size) := by
  obtain ⟨_, hdec, ⟨hc, hp⟩, t, _, hb, _⟩ := from_json_ok_inv load s b r h
  have h1 := from_json_unsigned_of_decodes s "n-chars" (hdec _ (by simp [numeric_fields]))
  have h2 := from_json_unsigned_of_decodes s "n-postags" (hdec _ (by simp [numeric_fields]))
  rw [hb]
  refine ⟨fun h0 => ?_, fun h0 => ?_, fun h0 => ?_, fun h0 => ?_⟩
  · simp [PostagModelBuilder.resolved, h0, h1]
  · simp [PostagModelBuilder.resolved, h0, h2]
  · rcases hc with hc | hc
    · exact absurd hc h0
    · refine ⟨by simp [PostagModelBuilder.resolved, h0], ?_⟩
      rw [h1, ← hc]
  · rcases hp with hp | hp
    · exact absurd hp h0
    · refine ⟨by simp [PostagModelBuilder.resolved, h0], ?_⟩
      rw [h2, ← hp]

/-- C3, witness: the sample store records 87 characters and 12 tags; read with
char_size = 0 and pos_size = 12, `from_json` succeeds, resolves char_size to the
recorded 87 and keeps pos_size = 12. -/
theorem C3_adopts_recorded_sizes_witness :
    PostagModelBuilder.from_json load_nothing sample_store
        { sample_builder "char-gru" with char_size := 0 } =
      .ok { builder := { sample_builder "char-lstm-wcluster" with char_size := 87 }
            engine := .CharacterLSTMWithClusterPostagModel
              [87, 16, 32, 1, 100, 64, 1, 8, 24, 2, 8]
            parameters := [] } ∧
    sample_store.from_json_unsigned "n-chars" = .ok 87 ∧
    sample_store.from_json_unsigned "n-postags" = .ok 12 :=
  have h := C3_adopts_recorded_sizes load_nothing sample_store
    { sample_builder "char-gru" with char_size := 0 }
    { builder := { sample_builder "char-lstm-wcluster" with char_size := 87 }
      engine := .CharacterLSTMWithClusterPostagModel [87, 16, 32, 1, 100, 64, 1, 8, 24, 2, 8]
      parameters := [] }
    (by decide)
  ⟨by decide, h.1 (by decide), (h.2.2.2 (by decide)).2⟩

/-- C4, evaluated on the code. For the name "char-transformer" the constructor
returns: it logs one error line and hands back a builder whose `model_type` is
what the uninitialised member held (no tag is assigned); when that content is the
char-gru tag, `build` constructs an engine from it. For the six catalog names the
constructor assigns six pairwise distinct tags and logs nothing. -/
theorem C4_unknown_name_still_constructs (uninit : Option ModelType)
    (alphabet : AlphabetCollection) :
    (PostagModelBuilder.construct uninit (sample_conf "char-transformer") alphabet).errors =
      ["[postag|model_builder] unknow postag model: char-transformer"] ∧
    (PostagModelBuilder.construct uninit (sample_conf "char-transformer")
      alphabet).builder.model_type = uninit ∧
    (PostagModelBuilder.construct (some .kCharacterGRUPostagModel)
      (sample_conf "char-transformer") sample_alphabet).builder.build =
      .ok (.CharacterGRUPostagModel [50, 16, 32, 1, 100, 64, 1, 8]) ∧
    catalog_names.map tag_of_name =
      [some .kCharacterGRUPostagModel, some .kCharacterLSTMPostagModel,
       some .kCharacterGRUPostagCRFModel, some .kCharacterLSTMPostagCRFModel,
       some .kCharacterClusterGRUPostagModel, some .kCharacterClusterLSTMPostagModel] ∧
    (catalog_names.map tag_of_name).Nodup ∧
    ∀ name ∈ catalog_names,
      (PostagModelBuilder.construct uninit (sample_conf name) alphabet).errors = [] ∧
      (PostagModelBuilder.construct uninit (sample_conf name) alphabet).builder.model_type =
        tag_of_name name := by
  refine ⟨?_, ?_, by decide, by decide, by decide, ?_⟩
  · simp [PostagModelBuilder.construct, sample_conf]
  · simp [PostagModelBuilder.construct, sample_conf]
  · intro name hn
    simp only [catalog_names, List.mem_cons, List.mem_singleton, List.not_mem_nil,
      or_false] at hn
    rcases hn with h | h | h | h | h | h <;> subst h <;>
      exact ⟨by simp [PostagModelBuilder.construct, sample_conf], by
        simp [PostagModelBuilder.construct, sample_conf, tag_of_name, Conf.named]⟩

/-- C5, the claim as stated fails: for the builder constructed from "char-gru"
with pos-char-hidden-dim = 0, a dimension that variant uses, `build` constructs
the engine, passing the 0 on; it does not fail with `InvalidHyperparameter`. -/
theorem C5_counterexample :
    (PostagModelBuilder.construct none
        { sample_conf "char-gru" with pos_char_hidden_dim := some 0 }
        sample_alphabet).builder.char_hidden_dim = 0 ∧
    (PostagModelBuilder.construct none
        { sample_conf "char-gru" with pos_char_hidden_dim := some 0 }
        sample_alphabet).builder.build =
      .ok (.CharacterGRUPostagModel [50, 16, 0, 1, 100, 64, 1, 8]) ∧
    (PostagModelBuilder.construct none
        { sample_conf "char-gru" with pos_char_hidden_dim := some 0 }
        sample_alphabet).builder.build ≠ .error .InvalidHyperparameter := by
  decide

/-- C5 as amended. `build` validates no hyperparameter: for every builder that
holds a catalog tag it constructs that variant's engine and passes the members
on as they are, zero or not (the plain argument list, or the cluster argument
list), and it never fails with `InvalidHyperparameter`. -/
theorem C5_build_validates_nothing (b : PostagModelBuilder) (t : ModelType)
    (h : b.model_type = some t) :
    b.build ≠ .error .InvalidHyperparameter ∧
    ∃ engine, b.build = .ok engine ∧ engine.args = b.expected_args := by
  obtain ⟨engine, he, ha⟩ := build_of_tag b t h
  refine ⟨?_, engine, he, ha⟩
  rw [he]
  intro hc
  cases hc

/-- C5, witness: the "char-gru" builder with char_hidden_dim = 0 and with
cluster_dim = 0. -/
theorem C5_build_validates_nothing_witness :
    ({ sample_builder "char-gru" with char_hidden_dim := 0, cluster_dim := 0 } :
        PostagModelBuilder).build ≠ .error .InvalidHyperparameter ∧
    ∃ engine,
      ({ sample_builder "char-gru" with char_hidden_dim := 0, cluster_dim := 0 } :
        PostagModelBuilder).build = .ok engine ∧
      engine.args =
        ({ sample_builder "char-gru" with char_hidden_dim := 0, cluster_dim := 0 } :
          PostagModelBuilder).expected_args :=
  C5_build_validates_nothing _ .kCharacterGRUPostagModel (by decide)

/-- C6, the claim as stated fails: for the builder constructed from
"char-lstm-crf", char-dim 16, char-hidden-dim 32, char-n-layer 1, word-hidden-dim
64, word-n-layer 1, pos-dim 8, embedding-dim 100 and the alphabet of 50 characters
and 12 tags, `to_json` on the empty store writes ten fields, not nine: the tenth
is "emb-dim". -/
theorem C6_counterexample :
    ((sample_builder "char-lstm-crf").to_json Model.empty).payload.length = 10 ∧
    ((sample_builder "char-lstm-crf").to_json Model.empty).get "postagger" "emb-dim" =
      some "100" := by
  decide

/-- C6 as amended. For the builder constructed from "char-lstm-crf", char-dim 16,
char-hidden-dim 32, char-n-layer 1, word-hidden-dim 64, word-n-layer 1, pos-dim 8
and the alphabet of 50 characters and 12 tags, whatever the cluster options and
embedding-dim are, `to_json` on the empty store writes under "postagger" exactly
ten scalar fields: the name, the six dimensions, the two vocabulary sizes, each as
decimal text, and "emb-dim" holding the decimal text of embed_dim. -/
theorem C6_to_json_writes_ten_fields (uninit : Option ModelType)
    (cluster_dim cluster_hidden_dim cluster_n_layer embedding_dim : Option Nat) :
    ((PostagModelBuilder.construct uninit
        { pos_model_name := "char-lstm-crf", pos_char_dim := some 16,
          pos_char_hidden_dim := some 32, pos_char_n_layer := some 1,
          pos_word_hidden_dim := some 64, pos_word_n_layer := some 1,
          pos_cluster_dim := cluster_dim, pos_cluster_hidden_dim := cluster_hidden_dim,
          pos_cluster_n_layer := cluster_n_layer, pos_pos_dim := some 8,
          embedding_dim := embedding_dim }
        ⟨50, 12⟩).builder.to_json Model.empty).payload =
      [("postagger", "name", "char-lstm-crf"), ("postagger", "n-chars", "50"),
       ("postagger", "char-dim", "16"), ("postagger", "char-hidden-dim", "32"),
       ("postagger", "char-n-layers", "1"), ("postagger", "word-hidden-dim", "64"),
       ("postagger", "word-n-layers", "1"), ("postagger", "pos-dim", "8"),
       ("postagger", "n-postags", "12"),
       ("postagger", "emb-dim", lexical_cast_string (embedding_dim.getD 0))] := by
  simp [PostagModelBuilder.construct, PostagModelBuilder.to_json,
    PostagModelBuilder.to_json_records, Model.to_json, Model.put, Model.get, Model.empty,
    Model.kPostaggerName]
  decide

/-- C7, evaluated on the code. `to_json` hands over a second record exactly for
the two cluster tags. For the builder constructed from "char-gru-wcluster" with
char-dim 16, char-hidden-dim 32, char-n-layer 1 and cluster-dim 8,
cluster-hidden-dim 24, cluster-n-layer 2, that record holds "16", "32", "1" under
"cluster-dim", "cluster-hidden-dim", "cluster-n-layers": the character members,
where the decimal texts of the cluster members are "8", "24", "2". -/
theorem C7_cluster_record_holds_char_members :
    (∀ b : PostagModelBuilder, b.to_json_records.length = 2 ↔
      (b.model_type = some .kCharacterClusterGRUPostagModel ∨
        b.model_type = some .kCharacterClusterLSTMPostagModel)) ∧
    (sample_builder "char-gru-wcluster").to_json_records.drop 1 =
      [[("cluster-dim", "16"), ("cluster-hidden-dim", "32"), ("cluster-n-layers", "1")]] ∧
    [lexical_cast_string (sample_builder "char-gru-wcluster").cluster_dim,
     lexical_cast_string (sample_builder "char-gru-wcluster").cluster_hidden_dim,
     lexical_cast_string (sample_builder "char-gru-wcluster").cluster_n_layers] =
      ["8", "24", "2"] ∧
    ((sample_builder "char-gru-wcluster").to_json Model.empty).get "postagger" "cluster-dim" =
      some "16" := by
  refine ⟨fun b => ?_, by decide, by decide, by decide⟩
  unfold PostagModelBuilder.to_json_records
  split_ifs with h <;> simp [h]

/-- C8, the claim as stated fails: the store records 51 characters and has no
"pos-dim" field; read by a builder that expects 50 characters, `from_json` fails
at the vocabulary check on "n-chars", before it ever reads "pos-dim": the failure
is the char-size mismatch, not `CorruptModelArtifact`. -/
theorem C8_counterexample :
    (⟨[("postagger", "name", "char-gru"), ("postagger", "n-chars", "51"),
       ("postagger", "n-postags", "12")]⟩ : Model).get "postagger" "pos-dim" = none ∧
    "pos-dim" ∈ required_fields "char-gru" ∧
    ∀ load, PostagModelBuilder.from_json load
        ⟨[("postagger", "name", "char-gru"), ("postagger", "n-chars", "51"),
          ("postagger", "n-postags", "12")]⟩
        (sample_builder "char-gru") =
      .error (.VocabularyMismatch "[postag|model_builder] char-size mismatch!") :=
  ⟨by decide, by decide, fun _ => rfl⟩

/-- C8 as amended. If "name" is not recorded, `from_json` fails with
`CorruptModelArtifact` on "name". If one of the fields that `to_json` writes for
the recorded name is missing or holds text that `boost::lexical_cast<unsigned>`
rejects, `from_json` fails, so it returns no engine and loads no parameter blob:
with `CorruptModelArtifact` when no vocabulary check can fail, and otherwise with
`CorruptModelArtifact` or `VocabularyMismatch`. Conversely, when "name" is
recorded and all twelve unsigned fields that `from_json` reads decode, the field
reads raise no `CorruptModelArtifact`: such a failure can only come from the
parameter loader. -/
theorem C8_corrupt_artifact (load : Model → String → PostagModel → Except Error (List Nat))
    (s : Model) (b : PostagModelBuilder) :
    (s.get Model.kPostaggerName "name" = none →
      PostagModelBuilder.from_json load s b = .error (.CorruptModelArtifact "name")) ∧
    (∀ name f, s.get Model.kPostaggerName "name" = some name → f ∈ required_fields name →
      f ≠ "name" → s.decodes f = false →
      ((∃ g, PostagModelBuilder.from_json load s b = .error (.CorruptModelArtifact g)) ∨
       (∃ msg, PostagModelBuilder.from_json load s b = .error (.VocabularyMismatch msg))) ∧
      (sizes_agree s b →
        ∃ g, PostagModelBuilder.from_json load s b = .error (.CorruptModelArtifact g))) ∧
    ((s.get Model.kPostaggerName "name").isSome = true →
      (∀ f ∈ numeric_fields, s.decodes f = true) →
      ∀ g, PostagModelBuilder.from_json load s b = .error (.CorruptModelArtifact g) →
        ∃ engine, load s Model.kPostaggerName engine = .error (.CorruptModelArtifact g)) := by
  refine ⟨fun hn => ?_, fun name f _ hf hne hd => ?_, fun hn hdec g hg => ?_⟩
  · apply from_json_of_fields_error
    simp [PostagModelBuilder.from_json_fields, bind, Except.bind, Model.from_json, hn]
  · have hmem := required_fields_subset name f hf hne
    rcases from_json_fields_cases s b with ⟨g, hg, _⟩ | ⟨msg, hm, hns⟩ | ⟨_, _, hdec, _⟩
    · exact ⟨Or.inl ⟨g, from_json_of_fields_error load s b _ hg⟩,
        fun _ => ⟨g, from_json_of_fields_error load s b _ hg⟩⟩
    · exact ⟨Or.inr ⟨msg, from_json_of_fields_error load s b _ hm⟩, fun hs => absurd hs hns⟩
    · have := hdec f hmem
      rw [hd] at this
      cases this
  · rcases from_json_fields_cases s b with ⟨f, _, hf | hf⟩ | ⟨msg, hm, _⟩ | ⟨hok, _, _, _⟩
    · rw [hf.2] at hn
      cases hn
    · have := hdec f hf.1
      rw [hf.2] at this
      cases this
    · rw [from_json_of_fields_error load s b _ hm] at hg
      cases hg
    · rw [from_json_of_fields_ok load s b _ hok] at hg
      cases hd : (b.resolved s).from_json_dispatch with
      | error e =>
        have he := from_json_dispatch_error _ e hd
        subst he
        simp [hd] at hg
      | ok te =>
        obtain ⟨t, engine⟩ := te
        simp only [hd] at hg
        cases hl : load s Model.kPostaggerName engine with
        | error e =>
          simp only [hl] at hg
          injection hg with hg
          exact ⟨engine, by rw [hl, hg]⟩
        | ok p => simp [hl] at hg

/-- C8, witness: a store without "name" fails on "name"; the store with the
undecodable "n-chars" fails with `CorruptModelArtifact` for a builder without
expectations; on the complete sample store a loader that succeeds leaves no
`CorruptModelArtifact`. -/
theorem C8_corrupt_artifact_witness :
    PostagModelBuilder.from_json load_nothing Model.empty (sample_builder "char-gru") =
      .error (.CorruptModelArtifact "name") ∧
    (∃ g, PostagModelBuilder.from_json load_nothing sample_store_bad_chars
        { sample_builder "char-gru" with char_size := 0, pos_size := 0 } =
      .error (.CorruptModelArtifact g)) ∧
    (∀ g, PostagModelBuilder.from_json load_nothing sample_store
        { sample_builder "char-gru" with char_size := 0 } = .error (.CorruptModelArtifact g) →
      ∃ engine, load_nothing sample_store Model.kPostaggerName engine =
        .error (.CorruptModelArtifact g)) :=
  ⟨(C8_corrupt_artifact load_nothing Model.empty (sample_builder "char-gru")).1 (by decide),
   ((C8_corrupt_artifact load_nothing sample_store_bad_chars
      { sample_builder "char-gru" with char_size := 0, pos_size := 0 }).2.1
      "char-gru" "n-chars" (by decide) (by decide) (by decide) (by decide)).2 (by decide),
   (C8_corrupt_artifact load_nothing sample_store
      { sample_builder "char-gru" with char_size := 0 }).2.2 (by decide) (by decide)⟩

/-- C9, the claim as stated fails: the store records the name "char-transformer"
and an undecodable "n-chars"; `from_json` fails on "n-chars" with
`CorruptModelArtifact`: the name is compared with the catalog only after all
fields are read. -/
theorem C9_counterexample :
    sample_store_unknown_bad_chars.get "postagger" "name" = some "char-transformer" ∧
    "char-transformer" ∉ catalog_names ∧
    ∀ load, PostagModelBuilder.from_json load sample_store_unknown_bad_chars
        (sample_builder "char-gru") = .error (.CorruptModelArtifact "n-chars") :=
  ⟨by decide, by decide, fun _ => rfl⟩

/-- C9 as amended. For every store whose recorded name is not one of the six
catalog names, `from_json` fails, so no engine is constructed and the parameter
blob is not loaded. The failure is `UnknownVariant` naming the recorded name when
all twelve unsigned fields decode and both vocabulary checks pass; otherwise it is
the `CorruptModelArtifact` or `VocabularyMismatch` of the earlier field reads. -/
theorem C9_unknown_recorded_name (load : Model → String → PostagModel → Except Error (List Nat))
    (s : Model) (b : PostagModelBuilder) (name : String)
    (hname : s.get Model.kPostaggerName "name" = some name) (hunk : name ∉ catalog_names) :
    ((∃ f, PostagModelBuilder.from_json load s b = .error (.CorruptModelArtifact f)) ∨
     (∃ msg, PostagModelBuilder.from_json load s b = .error (.VocabularyMismatch msg)) ∨
     PostagModelBuilder.from_json load s b = .error (.UnknownVariant name)) ∧
    ((∀ f ∈ numeric_fields, s.decodes f = true) → sizes_agree s b →
      PostagModelBuilder.from_json load s b = .error (.UnknownVariant name)) := by
  have hfin : b.from_json_fields s = .ok (b.resolved s) →
      PostagModelBuilder.from_json load s b = .error (.UnknownVariant name) := by
    intro hok
    rw [from_json_of_fields_ok load s b _ hok]
    have hn : (b.resolved s).model_name = name := by
      simp [PostagModelBuilder.resolved, hname]
    have hd := from_json_dispatch_unknown (b.resolved s)
      (by rw [hn]; exact (tag_of_name_eq_none_iff name).mpr hunk)
    rw [hd, hn]
  refine ⟨?_, fun hdec hsz => ?_⟩
  · rcases from_json_fields_cases s b with ⟨f, hf, _⟩ | ⟨msg, hm, _⟩ | ⟨hok, _, _, _⟩
    · exact Or.inl ⟨f, from_json_of_fields_error load s b _ hf⟩
    · exact Or.inr (Or.inl ⟨msg, from_json_of_fields_error load s b _ hm⟩)
    · exact Or.inr (Or.inr (hfin hok))
  · rcases from_json_fields_cases s b with ⟨f, _, hf | hf⟩ | ⟨msg, _, hns⟩ | ⟨hok, _, _, _⟩
    · rw [hf.2] at hname
      cases hname
    · have := hdec f hf.1
      rw [hf.2] at this
      cases this
    · exact absurd hsz hns
    · exact hfin hok

/-- C9, witness: the complete sample store with the name replaced by
"char-transformer" fails with `UnknownVariant`. -/
theorem C9_unknown_recorded_name_witness :
    PostagModelBuilder.from_json load_nothing sample_store_unknown
        { sample_builder "char-gru" with char_size := 0 } =
      .error (.UnknownVariant "char-transformer") :=
  (C9_unknown_recorded_name load_nothing sample_store_unknown
    { sample_builder "char-gru" with char_size := 0 } "char-transformer"
    (by decide) (by decide)).2 (by decide) (by decide)

/-- C10. For a builder `bv` holding one of the six catalog names with that name's
tag, every store that records the name and the twelve unsigned members of `bv`,
and every caller whose char_size and pos_size are 0 or the recorded ones:
`build` on `bv` constructs an engine whose arguments are, in order, char_size,
char_dim, char_hidden_dim, char_n_layers, embed_dim, word_hidden_dim,
word_n_layers, (cluster_dim, cluster_hidden_dim, cluster_n_layers for the cluster
variants,) pos_dim; `from_json` constructs that same engine (same class, same
argument list), leaves the members equal to `bv`, and hands the engine to the
parameter loader. Moreover `build` reaches a constructor for every builder that
holds a catalog tag. -/
theorem C10_build_reconstruct_agree
    (load : Model → String → PostagModel → Except Error (List Nat))
    (s : Model) (b0 bv : PostagModelBuilder)
    (hcat : bv.model_name ∈ catalog_names) (htag : bv.model_type = tag_of_name bv.model_name)
    (hrec : s.records bv) (hc : b0.char_size = 0 ∨ b0.char_size = bv.char_size)
    (hp : b0.pos_size = 0 ∨ b0.pos_size = bv.pos_size) :
    (∃ engine, bv.build = .ok engine ∧ engine.args = bv.expected_args ∧
      PostagModelBuilder.from_json load s b0 =
        (load s Model.kPostaggerName engine).map fun parameters =>
          { builder := bv, engine := engine, parameters := parameters }) ∧
    ∀ (b : PostagModelBuilder) (t : ModelType), b.model_type = some t →
      ∃ engine, b.build = .ok engine := by
  obtain ⟨engine, hb, hfrom⟩ := from_json_of_records load s b0 bv hcat htag hrec hc hp
  obtain ⟨t, ht⟩ := Option.isSome_iff_exists.mp ((tag_of_name_isSome_iff _).mpr hcat)
  obtain ⟨engine2, hb2, hargs⟩ := build_of_tag bv t (htag.trans ht)
  have he : engine2 = engine := by
    rw [hb] at hb2
    cases hb2
    rfl
  subst he
  refine ⟨⟨engine2, hb, hargs, hfrom⟩, fun b t h => ?_⟩
  obtain ⟨e, he, _⟩ := build_of_tag b t h
  exact ⟨e, he⟩

/-- C10, witness: the sample store and the "char-lstm-wcluster" builder holding
the values it records; `build` and `from_json` construct the same
`CharacterLSTMWithClusterPostagModel` with arguments
87, 16, 32, 1, 100, 64, 1, 8, 24, 2, 8. -/
theorem C10_build_reconstruct_agree_witness :
    ∃ engine,
      ({ sample_builder "char-lstm-wcluster" with char_size := 87 } :
        PostagModelBuilder).build = .ok engine ∧
      engine.args =
        ({ sample_builder "char-lstm-wcluster" with char_size := 87 } :
          PostagModelBuilder).expected_args ∧
      PostagModelBuilder.from_json load_nothing sample_store
          { sample_builder "char-gru" with char_size := 0 } =
        (load_nothing sample_store Model.kPostaggerName engine).map fun parameters =>
          { builder := { sample_builder "char-lstm-wcluster" with char_size := 87 }
            engine := engine, parameters := parameters } :=
  (C10_build_reconstruct_agree load_nothing sample_store
    { sample_builder "char-gru" with char_size := 0 }
    { sample_builder "char-lstm-wcluster" with char_size := 87 }
    (by decide) (by decide) (by decide) (by decide) (by decide)).1

/-! ## Order of the field reads and writes -/

theorem readable_name (s : Model) :
    s.readable "name" = (s.get Model.kPostaggerName "name").isSome := by
  simp [Model.readable]

theorem readable_of_ne_name (s : Model) (k : String) (h : k ≠ "name") :
    s.readable k = s.decodes k := by
  simp [Model.readable, h]

/-- The order of the reads, seen from outside: when no vocabulary check can fail,
`from_json` fails on the first key of `from_json_keys` that cannot be read, and
succeeds with the resolved members when every key can be read. -/
theorem from_json_fields_first_unreadable (s : Model) (b : PostagModelBuilder)
    (hsz : sizes_agree s b) :
    b.from_json_fields s =
      match s.first_unreadable with
      | some f => .error (.CorruptModelArtifact f)
      | none => .ok (b.resolved s) := by
  obtain ⟨hc, hp⟩ := hsz
  cases h0 : s.from_json Model.kPostaggerName "name" with
  | error e =>
    obtain ⟨he, hg⟩ := from_json_name_error s e h0
    subst he
    have hr0 : s.readable "name" = false := by rw [readable_name, hg]; rfl
    simp [PostagModelBuilder.from_json_fields, bind, Except.bind, h0, Model.first_unreadable,
      from_json_keys, hr0]
  | ok name =>
  have hname := from_json_name_ok s name h0
  have hr0 : s.readable "name" = true := by rw [readable_name, hname]; rfl
  cases h1 : s.from_json_unsigned "n-chars" with
  | error e =>
    have he := from_json_unsigned_error s _ e h1
    subst he
    have hr1 : s.readable "n-chars" = false := by
      rw [readable_of_ne_name s _ (by decide)]; exact decodes_of_error s _ _ h1
    simp [PostagModelBuilder.from_json_fields, bind, Except.bind, h0, h1,
      Model.first_unreadable, from_json_keys, hr0, hr1, reconcile_size_eq]
  | ok v1 =>
  obtain ⟨hd1, hu1⟩ := decodes_of_ok s _ _ h1
  have hr1 : s.readable "n-chars" = true := by
    rw [readable_of_ne_name s _ (by decide)]; exact hd1
  rw [hu1] at hc
  cases h2 : s.from_json_unsigned "n-postags" with
  | error e =>
    have he := from_json_unsigned_error s _ e h2
    subst he
    have hr2 : s.readable "n-postags" = false := by
      rw [readable_of_ne_name s _ (by decide)]; exact decodes_of_error s _ _ h2
    simp [PostagModelBuilder.from_json_fields, bind, Except.bind, h0, h1, h2,
      Model.first_unreadable, from_json_keys, hr0, hr1, hr2, reconcile_size_eq, hc]
  | ok v2 =>
  obtain ⟨hd2, hu2⟩ := decodes_of_ok s _ _ h2
  have hr2 : s.readable "n-postags" = true := by
    rw [readable_of_ne_name s _ (by decide)]; exact hd2
  rw [hu2] at hp
  cases h3 : s.from_json_unsigned "char-dim" with
  | error e =>
    have he := from_json_unsigned_error s _ e h3
    subst he
    have hr3 : s.readable "char-dim" = false := by
      rw [readable_of_ne_name s _ (by decide)]; exact decodes_of_error s _ _ h3
    simp [PostagModelBuilder.from_json_fields, bind, Except.bind, h0, h1, h2, h3,
      Model.first_unreadable, from_json_keys, hr0, hr1, hr2, hr3, reconcile_size_eq, hc, hp]
  | ok v3 =>
  obtain ⟨hd3, hu3⟩ := decodes_of_ok s _ _ h3
  have hr3 : s.readable "char-dim" = true := by
    rw [readable_of_ne_name s _ (by decide)]; exact hd3
  cases h4 : s.from_json_unsigned "char-hidden-dim" with
  | error e =>
    have he := from_json_unsigned_error s _ e h4
    subst he
    have hr4 : s.readable "char-hidden-dim" = false := by
      rw [readable_of_ne_name s _ (by decide)]; exact decodes_of_error s _ _ h4
    simp [PostagModelBuilder.from_json_fields, bind, Except.bind, h0, h1, h2, h3, h4,
      Model.first_unreadable, from_json_keys, hr0, hr1, hr2, hr3, hr4, reconcile_size_eq, hc, hp]
  | ok v4 =>
  obtain ⟨hd4, hu4⟩ := decodes_of_ok s _ _ h4
  have hr4 : s.readable "char-hidden-dim" = true := by
    rw [readable_of_ne_name s _ (by decide)]; exact hd4
  cases h5 : s.from_json_unsigned "char-n-layers" with
  | error e =>
    have he := from_json_unsigned_error s _ e h5
    subst he
    have hr5 : s.readable "char-n-layers" = false := by
      rw [readable_of_ne_name s _ (by decide)]; exact decodes_of_error s _ _ h5
    simp [PostagModelBuilder.from_json_fields, bind, Except.bind, h0, h1, h2, h3, h4, h5,
      Model.first_unreadable, from_json_keys, hr0, hr1, hr2, hr3, hr4, hr5, reconcile_size_eq, hc, hp]
  | ok v5 =>
  obtain ⟨hd5, hu5⟩ := decodes_of_ok s _ _ h5
  have hr5 : s.readable "char-n-layers" = true := by
    rw [readable_of_ne_name s _ (by decide)]; exact hd5
  cases h6 : s.from_json_unsigned "word-hidden-dim" with
  | error e =>
    have he := from_json_unsigned_error s _ e h6
    subst he
    have hr6 : s.readable "word-hidden-dim" = false := by
      rw [readable_of_ne_name s _ (by decide)]; exact decodes_of_error s _ _ h6
    simp [PostagModelBuilder.from_json_fields, bind, Except.bind, h0, h1, h2, h3, h4, h5, h6,
      Model.first_unreadable, from_json_keys, hr0, hr1, hr2, hr3, hr4, hr5, hr6, reconcile_size_eq, hc, hp]
  | ok v6 =>
  obtain ⟨hd6, hu6⟩ := decodes_of_ok s _ _ h6
  have hr6 : s.readable "word-hidden-dim" = true := by
    rw [readable_of_ne_name s _ (by decide)]; exact hd6
  cases h7 : s.from_json_unsigned "word-n-layers" with
  | error e =>
    have he := from_json_unsigned_error s _ e h7
    subst he
    have hr7 : s.readable "word-n-layers" = false := by
      rw [readable_of_ne_name s _ (by decide)]; exact decodes_of_error s _ _ h7
    simp [PostagModelBuilder.from_json_fields, bind, Except.bind, h0, h1, h2, h3, h4, h5, h6, h7,
      Model.first_unreadable, from_json_keys, hr0, hr1, hr2, hr3, hr4, hr5, hr6, hr7, reconcile_size_eq, hc, hp]
  | ok v7 =>
  obtain ⟨hd7, hu7⟩ := decodes_of_ok s _ _ h7
  have hr7 : s.readable "word-n-layers" = true := by
    rw [readable_of_ne_name s _ (by decide)]; exact hd7
  cases h8 : s.from_json_unsigned "cluster-dim" with
  | error e =>
    have he := from_json_unsigned_error s _ e h8
    subst he
    have hr8 : s.readable "cluster-dim" = false := by
      rw [readable_of_ne_name s _ (by decide)]; exact decodes_of_error s _ _ h8
    simp [PostagModelBuilder.from_json_fields, bind, Except.bind, h0, h1, h2, h3, h4, h5, h6, h7, h8,
      Model.first_unreadable, from_json_keys, hr0, hr1, hr2, hr3, hr4, hr5, hr6, hr7, hr8, reconcile_size_eq, hc, hp]
  | ok v8 =>
  obtain ⟨hd8, hu8⟩ := decodes_of_ok s _ _ h8
  have hr8 : s.readable "cluster-dim" = true := by
    rw [readable_of_ne_name s _ (by decide)]; exact hd8
  cases h9 : s.from_json_unsigned "cluster-hidden-dim" with
  | error e =>
    have he := from_json_unsigned_error s _ e h9
    subst he
    have hr9 : s.readable "cluster-hidden-dim" = false := by
      rw [readable_of_ne_name s _ (by decide)]; exact decodes_of_error s _ _ h9
    simp [PostagModelBuilder.from_json_fields, bind, Except.bind, h0, h1, h2, h3, h4, h5, h6, h7, h8, h9,
      Model.first_unreadable, from_json_keys, hr0, hr1, hr2, hr3, hr4, hr5, hr6, hr7, hr8, hr9, reconcile_size_eq, hc, hp]
  | ok v9 =>
  obtain ⟨hd9, hu9⟩ := decodes_of_ok s _ _ h9
  have hr9 : s.readable "cluster-hidden-dim" = true := by
    rw [readable_of_ne_name s _ (by decide)]; exact hd9
  cases h10 : s.from_json_unsigned "cluster-n-layers" with
  | error e =>
    have he := from_json_unsigned_error s _ e h10
    subst he
    have hr10 : s.readable "cluster-n-layers" = false := by
      rw [readable_of_ne_name s _ (by decide)]; exact decodes_of_error s _ _ h10
    simp [PostagModelBuilder.from_json_fields, bind, Except.bind, h0, h1, h2, h3, h4, h5, h6, h7, h8, h9, h10,
      Model.first_unreadable, from_json_keys, hr0, hr1, hr2, hr3, hr4, hr5, hr6, hr7, hr8, hr9, hr10, reconcile_size_eq, hc, hp]
  | ok v10 =>
  obtain ⟨hd10, hu10⟩ := decodes_of_ok s _ _ h10
  have hr10 : s.readable "cluster-n-layers" = true := by
    rw [readable_of_ne_name s _ (by decide)]; exact hd10
  cases h11 : s.from_json_unsigned "pos-dim" with
  | error e =>
    have he := from_json_unsigned_error s _ e h11
    subst he
    have hr11 : s.readable "pos-dim" = false := by
      rw [readable_of_ne_name s _ (by decide)]; exact decodes_of_error s _ _ h11
    simp [PostagModelBuilder.from_json_fields, bind, Except.bind, h0, h1, h2, h3, h4, h5, h6, h7, h8, h9, h10, h11,
      Model.first_unreadable, from_json_keys, hr0, hr1, hr2, hr3, hr4, hr5, hr6, hr7, hr8, hr9, hr10, hr11, reconcile_size_eq, hc, hp]
  | ok v11 =>
  obtain ⟨hd11, hu11⟩ := decodes_of_ok s _ _ h11
  have hr11 : s.readable "pos-dim" = true := by
    rw [readable_of_ne_name s _ (by decide)]; exact hd11
  cases h12 : s.from_json_unsigned "emb-dim" with
  | error e =>
    have he := from_json_unsigned_error s _ e h12
    subst he
    have hr12 : s.readable "emb-dim" = false := by
      rw [readable_of_ne_name s _ (by decide)]; exact decodes_of_error s _ _ h12
    simp [PostagModelBuilder.from_json_fields, bind, Except.bind, h0, h1, h2, h3, h4, h5, h6, h7, h8, h9, h10, h11, h12,
      Model.first_unreadable, from_json_keys, hr0, hr1, hr2, hr3, hr4, hr5, hr6, hr7, hr8, hr9, hr10, hr11, hr12, reconcile_size_eq, hc, hp]
  | ok v12 =>
  obtain ⟨hd12, hu12⟩ := decodes_of_ok s _ _ h12
  have hr12 : s.readable "emb-dim" = true := by
    rw [readable_of_ne_name s _ (by decide)]; exact hd12
  simp [PostagModelBuilder.from_json_fields, bind, Except.bind, pure, Except.pure, h0, h1, h2, h3, h4, h5, h6, h7, h8, h9, h10, h11, h12,
    Model.first_unreadable, from_json_keys, hr0, hr1, hr2, hr3, hr4, hr5, hr6, hr7, hr8, hr9, hr10, hr11, hr12, reconcile_size_eq, hc, hp,
    PostagModelBuilder.resolved, hname, hu1, hu2, hu3, hu4, hu5, hu6, hu7, hu8, hu9, hu10, hu11, hu12]

theorem to_json_keys_cluster (b : PostagModelBuilder)
    (hcl : b.model_type = some .kCharacterClusterGRUPostagModel ∨
      b.model_type = some .kCharacterClusterLSTMPostagModel) :
    b.to_json_keys =
      ["name", "n-chars", "char-dim", "char-hidden-dim", "char-n-layers", "word-hidden-dim",
       "word-n-layers", "pos-dim", "n-postags", "emb-dim", "cluster-dim",
       "cluster-hidden-dim", "cluster-n-layers"] := by
  simp [PostagModelBuilder.to_json_keys, PostagModelBuilder.to_json_records, hcl]

theorem to_json_keys_plain (b : PostagModelBuilder)
    (hcl : ¬ (b.model_type = some .kCharacterClusterGRUPostagModel ∨
      b.model_type = some .kCharacterClusterLSTMPostagModel)) :
    b.to_json_keys =
      ["name", "n-chars", "char-dim", "char-hidden-dim", "char-n-layers", "word-hidden-dim",
       "word-n-layers", "pos-dim", "n-postags", "emb-dim"] := by
  simp [PostagModelBuilder.to_json_keys, PostagModelBuilder.to_json_records, hcl]

/-- C11, the claim as stated fails: for the builder constructed from
"char-gru-wcluster", `to_json` writes "name", "n-chars", "char-dim", ... with
"n-postags" ninth and the cluster keys last, the store keeps that order, and
`from_json` reads "name", "n-chars", "n-postags", ... with the cluster keys before
"pos-dim" and "emb-dim". The third field in insertion order is "char-dim", the
third key `from_json` reads is "n-postags". -/
theorem C11_counterexample :
    (sample_builder "char-gru-wcluster").to_json_keys ≠ from_json_keys ∧
    (((sample_builder "char-gru-wcluster").to_json Model.empty).payload.map fun e => e.2.1) =
      (sample_builder "char-gru-wcluster").to_json_keys ∧
    (sample_builder "char-gru-wcluster").to_json_keys.get? 2 = some "char-dim" ∧
    from_json_keys.get? 2 = some "n-postags" := by
  decide

/-- C11 as amended. For every builder: each field key `to_json` writes is one of
the keys `from_json` reads; the store holds the written fields in the order of
writing; that order is not the order in which `from_json` reads; and `from_json`
does not depend on it, because the lookup of each written key returns the text
written under that key. For the two cluster variants the keys read are exactly
the keys written, each once. -/
theorem C11_fields_read_by_key (b : PostagModelBuilder) :
    (∀ k ∈ b.to_json_keys, k ∈ from_json_keys) ∧
    b.to_json_keys ≠ from_json_keys ∧
    ((b.to_json Model.empty).payload.map fun e => e.2.1) = b.to_json_keys ∧
    (∀ kv ∈ b.to_json_records.flatten,
      (b.to_json Model.empty).get Model.kPostaggerName kv.1 = some kv.2) ∧
    ((b.model_type = some .kCharacterClusterGRUPostagModel ∨
        b.model_type = some .kCharacterClusterLSTMPostagModel) →
      from_json_keys.Perm b.to_json_keys) := by
  by_cases hcl : b.model_type = some .kCharacterClusterGRUPostagModel ∨
      b.model_type = some .kCharacterClusterLSTMPostagModel
  · rw [to_json_keys_cluster b hcl]
    refine ⟨by decide, by decide, ?_, ?_, fun _ => by decide⟩
    · simp [to_json_payload_cluster b hcl]
    · intro kv hkv
      simp only [PostagModelBuilder.to_json_records, hcl, if_true] at hkv
      simp at hkv
      rcases hkv with h | h | h | h | h | h | h | h | h | h | h | h | h <;> subst h <;>
        simp [Model.get, to_json_payload_cluster b hcl, Model.kPostaggerName]
  · rw [to_json_keys_plain b hcl]
    refine ⟨by decide, by decide, ?_, ?_, fun h => absurd h hcl⟩
    · simp [to_json_payload_plain b hcl]
    · intro kv hkv
      simp only [PostagModelBuilder.to_json_records, hcl, if_false] at hkv
      simp at hkv
      rcases hkv with h | h | h | h | h | h | h | h | h | h <;> subst h <;>
        simp [Model.get, to_json_payload_plain b hcl, Model.kPostaggerName]

/-- C11, witness: for the builder constructed from "char-lstm-wcluster" the keys
read are a rearrangement of the keys written. -/
theorem C11_fields_read_by_key_witness :
    from_json_keys.Perm (sample_builder "char-lstm-wcluster").to_json_keys :=
  (C11_fields_read_by_key (sample_builder "char-lstm-wcluster")).2.2.2.2 (by decide)

/-! ## Index safety of the CoNLL loop -/

theorem at_index_ok {α : Type} (vector : String) (v : List α) (i : Nat) (h : i < v.length) :
    ∃ x, at_index vector v i = .ok x := by
  unfold at_index
  rw [List.get?_eq_get h]
  exact ⟨_, rfl⟩

theorem at_index_error {α : Type} (vector : String) (v : List α) (i : Nat)
    (h : v.length ≤ i) : at_index vector v i = .error ⟨vector, i, v.length⟩ := by
  unfold at_index
  rw [List.get?_eq_none.mpr h]

theorem conll_row_ok (st : ConllState) (i : Nat) (ht : i < st.tokens.length)
    (hp : i < st.postags.length) (hg : i < st.gold_postags.length) :
    ∃ st2, conll_row st i = .ok st2 ∧ st2.tokens = st.tokens ∧ st2.postags = st.postags ∧
      st2.gold_postags = st.gold_postags := by
  obtain ⟨t, h1⟩ := at_index_ok "tokens" st.tokens i ht
  obtain ⟨p, h2⟩ := at_index_ok "postags" st.postags i hp
  obtain ⟨g, h3⟩ := at_index_ok "gold_postags" st.gold_postags i hg
  simp [conll_row, bind, Except.bind, pure, Except.pure, h1, h2, h3]

theorem conll_rows_ok (indices : List Nat) : ∀ (st : ConllState),
    (∀ i ∈ indices, i < st.tokens.length) → st.postags.length = st.tokens.length →
    st.gold_postags.length = st.tokens.length →
    ∃ st2, indices.foldlM conll_row st = .ok st2 ∧ st2.tokens = st.tokens ∧
      st2.postags = st.postags ∧ st2.gold_postags = st.gold_postags := by
  induction indices with
  | nil =>
    intro st _ _ _
    exact ⟨st, rfl, rfl, rfl, rfl⟩
  | cons i rest ih =>
    intro st hi hp hg
    have hlt := hi i (List.mem_cons_self _ _)
    obtain ⟨st1, h1, ht1, hp1, hg1⟩ := conll_row_ok st i hlt (by omega) (by omega)
    obtain ⟨st2, h2, ht2, hp2, hg2⟩ := ih st1
      (fun j hj => by rw [ht1]; exact hi j (List.mem_cons_of_mem _ hj))
      (by rw [hp1, ht1]; exact hp) (by rw [hg1, ht1]; exact hg)
    refine ⟨st2, ?_, by rw [ht2, ht1], by rw [hp2, hp1], by rw [hg2, hg1]⟩
    simp [List.foldlM, bind, Except.bind, h1]
    exact h2

theorem conll_line_ok (tagger : List String → List String → List String)
    (htag : one_tag_per_token tagger) (st : ConllState) (line : String)
    (hinv : st.gold_postags.length = st.tokens.length) (hline : well_formed_line line = true) :
    ∃ st2, conll_line (some tagger) st line = .ok st2 ∧
      st2.gold_postags.length = st2.tokens.length := by
  unfold conll_line
  simp only []
  by_cases hblank : (trim line.toList).length = 0
  · simp only [hblank, if_true]
    obtain ⟨st2, h2, _, _, _⟩ := conll_rows_ok
      (List.range st.tokens.length)
      { st with postags := tagger st.tokens st.postags,
                cout := st.cout ++ ["# text = " ++ st.sentence ++ "\n"] }
      (fun i hi => List.mem_range.mp hi) (htag _ _) hinv
    refine ⟨{ st2 with cout := st2.cout ++ ["\n"], tokens := [], postags := [],
                       gold_postags := [] }, ?_, rfl⟩
    simp only [bind, Except.bind, h2]
    rfl
  · simp only [hblank, if_false]
    by_cases hcomment : (trim line.toList).head? = some '#'
    · simp only [hcomment, if_true]
      split_ifs
      · exact ⟨_, rfl, hinv⟩
      · exact ⟨_, rfl, hinv⟩
    · simp only [hcomment, if_false]
      have hcols : 4 ≤ (split (trim line.toList)).length := by
        unfold well_formed_line at hline
        simp only [Bool.or_eq_true, decide_eq_true_eq] at hline
        rcases hline with (h | h) | h
        · exact absurd h hblank
        · exact absurd h hcomment
        · exact h
      obtain ⟨d1, h1⟩ := at_index_ok "data" (split (trim line.toList)) 1 (by omega)
      obtain ⟨d3, h3⟩ := at_index_ok "data" (split (trim line.toList)) 3 (by omega)
      refine ⟨{ st with tokens := st.tokens ++ [String.mk d1],
                        gold_postags := st.gold_postags ++ [String.mk d3] }, ?_, ?_⟩
      · simp only [bind, Except.bind, h1, h3]
        rfl
      · simp [hinv]

theorem conll_lines_ok (tagger : List String → List String → List String)
    (htag : one_tag_per_token tagger) (lines : List String) : ∀ (st : ConllState),
    st.gold_postags.length = st.tokens.length →
    (∀ line ∈ lines, well_formed_line line = true) →
    ∃ st2, lines.foldlM (conll_line (some tagger)) st = .ok st2 := by
  induction lines with
  | nil =>
    intro st _ _
    exact ⟨st, rfl⟩
  | cons line rest ih =>
    intro st hinv hl
    obtain ⟨st1, h1, hinv1⟩ := conll_line_ok tagger htag st line hinv
      (hl line (List.mem_cons_self _ _))
    obtain ⟨st2, h2⟩ := ih st1 hinv1 (fun l hm => hl l (List.mem_cons_of_mem _ hm))
    refine ⟨st2, ?_⟩
    simp [List.foldlM, bind, Except.bind, h1]
    exact h2

/-- With a tagger loaded that returns one tag per token, and an input whose lines
are blank, comments, or have at least four columns, no element access of the
CoNLL loop is out of range. -/
theorem conll_main_ok (postag parse : Bool)
    (tagger : List String → List String → List String) (lines : List String)
    (hflag : (postag || parse) = true) (htag : one_tag_per_token tagger)
    (hlines : ∀ line ∈ lines, well_formed_line line = true) :
    ∃ st, conll_main postag parse tagger lines = .ok st := by
  unfold conll_main
  simp only [hflag, if_true]
  exact conll_lines_ok tagger htag lines ConllState.initial rfl hlines

theorem split_length (buffer : List Char) :
    (split buffer).length = (buffer.filter fun c => c = '\t' ∨ c = ' ').length + 1 := by
  induction buffer with
  | nil => rfl
  | cons c rest ih =>
    unfold split
    by_cases hc : c = '\t' ∨ c = ' '
    · simp [hc, ih]
    · simp only [hc, if_false]
      cases hs : split rest with
      | nil => rw [hs] at ih; simp at ih
      | cons column columns =>
        rw [hs] at ih
        simp only [List.length_cons] at ih ⊢
        rw [List.filter_cons_of_neg (by simpa using hc)]
        exact ih

/-- C12, evaluated on the code. With neither `--postag` nor `--parse` no tagger is
loaded and `postags` stays empty; on the input of one token line
"1 Hello _ UH" (tab separated) followed by a blank line, the loop reads
`postags[0]` of the empty vector, whatever the tagger would have been. With a
tagger loaded that returns one tag per token, the line "Hello" has one column and
`data[1]` is out of range, and the line "1 Hello _" has three columns and
`data[3]` is out of range. The same token line is processed without any access out
of range when the tagger is loaded. -/
theorem C12_conll_loop_reads_out_of_range :
    (∀ tagger, conll_main false false tagger ["1\tHello\t_\tUH", ""] =
      .error ⟨"postags", 0, 0⟩) ∧
    one_tag_per_token sample_tagger ∧
    conll_main true false sample_tagger ["Hello"] = .error ⟨"data", 1, 1⟩ ∧
    conll_main false true sample_tagger ["1 Hello _"] = .error ⟨"data", 3, 3⟩ ∧
    conll_main true false sample_tagger ["1\tHello\t_\tUH", ""] =
      .ok { tokens := [], gold_postags := [], postags := [], sentence := "",
            n_pos_corr := 0, n_total := 1,
            cout := ["# text = \n", "1\tHello\t_\tN\t_\tGoldPOS=UH\t_\t_\t_\n", "\n"] } := by
  refine ⟨fun _ => rfl, fun tokens _ => ?_, by decide, by decide, by decide⟩
  simp [sample_tagger]

end twpipe
